import Mathlib

/-!
Verification development for the AutoMoveOrganized repository: a shallow
embedding, in Lean 4, of the pure logic of the media-file relocation
pipeline (`auto_move_organized.py`), the translation helper
(`ai_translate.py`), the bulk mover variant (`autoMove.py`) and the
standalone poster-fixing tool (`fix_posters_match_video.py`).

Modelling conventions:
* Python values read from JSON are modelled by the `Json` inductive; Python
  `None` and JSON `null` are both `Json.null` (they are the same object in
  the Python program, which loads its input with `json.loads`).
* Numbers are modelled as `Int`; durations, sizes and bitrates in the data
  are integral in the model, and Python `round` is modelled exactly as
  round-half-to-even on rationals `num/den`.
* Fallible Python code (code that can raise) is embedded in
  `Except String`; the string is a rendering of the exception.  Code whose
  exceptions are swallowed by a caller's `try/except` is embedded as a
  total function where the caller's behaviour makes that faithful.
* The filesystem is a finite map from absolute path to file content
  (`FS`); directories are a plain list (`makedirs` appends).  Network
  responses (HTTP downloads, the translation API) are supplied by oracles
  (`Env`, `HttpResp`), since the program treats them as opaque inputs.
-/

/-! ## Python string primitives -/

/-- The characters Python's `str.strip()` removes (ASCII whitespace). -/
def isPySpace (c : Char) : Bool :=
  c == ' ' || c == '\t' || c == '\n' || c == '\r' || c == '\x0b' || c == '\x0c'

/-- `str.strip()` on a character list: drop whitespace from both ends. -/
def stripChars (l : List Char) : List Char :=
  ((l.dropWhile isPySpace).reverse.dropWhile isPySpace).reverse

/-- Python `s.strip()`. -/
def pyStrip (s : String) : String := String.mk (stripChars s.data)

/-- Python `s.lower()` (ASCII). -/
def lowerStr (s : String) : String := String.mk (s.data.map Char.toLower)

/-- Python `s.lstrip(".")`. -/
def lstripDot (s : String) : String := String.mk (s.data.dropWhile (fun c => c == '.'))

/-- Python `s.rstrip("/")`. -/
def rstripSlash (s : String) : String :=
  String.mk ((s.data.reverse.dropWhile (fun c => c == '/')).reverse)

/-- Substring containment, Python's `needle in haystack` on strings. -/
def listIsSub (n : List Char) : List Char → Bool
  | [] => n.isEmpty
  | c :: rest => n.isPrefixOf (c :: rest) || listIsSub n rest

def strContains (haystack needle : String) : Bool := listIsSub needle.data haystack.data

/-- Python `s.startswith(p)`. -/
def startsWithStr (s p : String) : Bool := p.data.isPrefixOf s.data

/-- Python `s.endswith(p)`. -/
def endsWithStr (s p : String) : Bool := p.data.isSuffixOf s.data

/-- Python `s[:-n]` for `n ≤ len(s)`. -/
def dropRightStr (s : String) (n : Nat) : String := String.mk (s.data.take (s.data.length - n))

/-- Python `s[n:]`. -/
def dropLeftStr (s : String) (n : Nat) : String := String.mk (s.data.drop n)

/-- `sep.join(parts)` for parts already known to be strings. -/
def strIntercalate (sep : String) : List String → String
  | [] => ""
  | [x] => x
  | x :: y :: rest => x ++ sep ++ strIntercalate sep (y :: rest)

/-- Decimal digits of a Nat, fuel-based so the kernel evaluates it; the fuel
`n + 1` always suffices. -/
def natDigitsAux : Nat → Nat → List Char
  | 0, _ => []
  | fuel + 1, n =>
    if n < 10 then [Nat.digitChar n]
    else natDigitsAux fuel (n / 10) ++ [Nat.digitChar (n % 10)]

def natToStr (n : Nat) : String := String.mk (natDigitsAux (n + 1) n)

/-- `str(i)` for a Python int. -/
def intToStr (i : Int) : String :=
  if i < 0 then "-" ++ natToStr i.natAbs else natToStr i.natAbs

/-- Python `round(num / den)` for `den > 0`: round half to even on the exact
rational, computed with floor division (`Int./` is Euclidean division, which
agrees with floor division for positive divisors). -/
def roundHalfEven (num den : Int) : Int :=
  let q := num / den
  let r := num % den
  if 2 * r < den then q
  else if 2 * r > den then q + 1
  else if q % 2 = 0 then q else q + 1

/-! ## Python data model: JSON-like values -/

/-- A Python value as produced by `json.loads`: `Json.null` is Python `None`. -/
inductive Json where
  | null
  | bool (b : Bool)
  | num (n : Int)
  | str (s : String)
  | arr (xs : List Json)
  | obj (fields : List (String × Json))

/-- Python truthiness. -/
def Json.truthy : Json → Bool
  | .null => false
  | .bool b => b
  | .num n => !(n == 0)
  | .str s => !s.data.isEmpty
  | .arr xs => !xs.isEmpty
  | .obj fs => !fs.isEmpty

def Json.isNull : Json → Bool
  | .null => true
  | _ => false

def Json.isStr : Json → Bool
  | .str _ => true
  | _ => false

/-- A Python `Dict[str, Any]`: an association list (first binding wins,
matching  dict lookup on the deduplicated dicts `json.loads` yields). -/
abbrev PyDict := List (String × Json)

/-- `d.get(k)`: the stored value (possibly `None`) or `None` when absent. -/
def dictGet (d : PyDict) (k : String) : Json := (List.lookup k d).getD .null

/-- `d.get(k, default)`. -/
def dictGetD (d : PyDict) (k : String) (v : Json) : Json := (List.lookup k d).getD v

/-- Python `k in d`. -/
def dictHasKey (d : PyDict) (k : String) : Bool := (List.lookup k d).isSome

/-- Python `a or b` (short-circuiting truthiness). -/
def pyOr (a b : Json) : Json := if a.truthy then a else b

/-- `j.get(k)` where `j` may not be a dict: non-dicts raise `AttributeError`. -/
def pyGetE (j : Json) (k : String) : Except String Json :=
  match j with
  | .obj fs => .ok (dictGet fs k)
  | _ => .error ("AttributeError: object has no attribute get: " ++ k)

/-- Python iteration `for x in j`: lists yield elements, strings yield
one-character strings, dicts yield their keys; everything else raises
`TypeError`. -/
def pyIter (j : Json) : Except String (List Json) :=
  match j with
  | .arr xs => .ok xs
  | .str s => .ok (s.data.map (fun c => .str (String.mk [c])))
  | .obj fs => .ok (fs.map (fun kv => .str kv.1))
  | _ => .error ("TypeError: object is not iterable")

/-- Python `j[i]` for a non-negative integer index. -/
def pyIndex (j : Json) (i : Nat) : Except String Json :=
  match j with
  | .arr xs =>
    match xs.get? i with
    | some v => .ok v
    | none => .error ("IndexError: index out of range")
  | .str s =>
    match s.data.get? i with
    | some c => .ok (.str (String.mk [c]))
    | none => .error ("IndexError: index out of range")
  | _ => .error ("TypeError: object is not subscriptable")

/-- Python `j[k]` for a string key. -/
def pyIndexKey (j : Json) (k : String) : Except String Json :=
  match j with
  | .obj fs =>
    match List.lookup k fs with
    | some v => .ok v
    | none => .error ("KeyError: " ++ k)
  | _ => .error ("TypeError: object is not subscriptable")

mutual
/-- Python `repr` of a JSON-like value (the exact digit rendering of `repr`
for floats is not needed: numbers are integers in the model). -/
def pyRepr : Json → String
  | .null => "None"
  | .bool true => "True"
  | .bool false => "False"
  | .num n => intToStr n
  | .str s => "\x27" ++ s ++ "\x27"
  | .arr xs => "[" ++ strIntercalate (", ") (pyReprList xs) ++ "]"
  | .obj fs => "\x7b" ++ strIntercalate (", ") (pyReprFields fs) ++ "\x7d"

def pyReprList : List Json → List String
  | [] => []
  | x :: xs => pyRepr x :: pyReprList xs

def pyReprFields : List (String × Json) → List String
  | [] => []
  | (k, v) :: xs => ("\x27" ++ k ++ "\x27: " ++ pyRepr v) :: pyReprFields xs
end

/-- Python `str(j)`. -/
def pyStr : Json → String
  | .str s => s
  | j => pyRepr j

/-- Python `int(j)`. -/
def pyInt (j : Json) : Except String Int :=
  match j with
  | .num n => .ok n
  | .bool b => .ok (if b then 1 else 0)
  | .str s =>
    match (pyStrip s).toInt? with
    | some n => .ok n
    | none => .error ("ValueError: invalid literal for int()")
  | _ => .error ("TypeError: int() argument")

/-- Python `float(j)`, restricted to values with integral meaning (all the
numeric fields of the data are integral in the model); `none` models the
conversions that raise. -/
def pyFloatInt (j : Json) : Option Int :=
  match j with
  | .num n => some n
  | .bool b => some (if b then 1 else 0)
  | .str s => (pyStrip s).toInt?
  | _ => none

/-- The element strings of a `str.join` argument; the first non-`str` item
raises `TypeError`. -/
def pyJoinStrs : List Json → Except String (List String)
  | [] => .ok []
  | x :: xs =>
    match x with
    | .str s => (pyJoinStrs xs).map (fun rest => s :: rest)
    | _ => .error ("TypeError: sequence item: expected str instance")

/-- Python `sep.join(items)`. -/
def pyJoin (sep : String) (l : List Json) : Except String String :=
  (pyJoinStrs l).map (strIntercalate sep)

/-! ## POSIX path helpers (`os.path` on the posix flavour) -/

/-- `os.path.basename`. -/
def basename (p : String) : String :=
  String.mk ((p.data.reverse.takeWhile (fun c => !(c == '/'))).reverse)

/-- `os.path.dirname`. -/
def dirname (p : String) : String :=
  let l := p.data
  if l.contains '/' then
    let head := (l.reverse.dropWhile (fun c => !(c == '/'))).reverse
    if head.all (fun c => c == '/') then String.mk head
    else String.mk ((head.reverse.dropWhile (fun c => c == '/')).reverse)
  else ""

/-- `os.path.splitext`: the extension starts at the last dot of the basename,
provided a non-dot character precedes it within the basename (so dotfiles
such as `.bashrc` have no extension). -/
def splitext (p : String) : String × String :=
  let l := p.data
  let baseR := l.reverse.takeWhile (fun c => !(c == '/'))
  let dirR := l.reverse.dropWhile (fun c => !(c == '/'))
  let extR := baseR.takeWhile (fun c => !(c == '.'))
  let restR := baseR.dropWhile (fun c => !(c == '.'))
  match restR with
  | [] => (p, "")
  | _ :: stemR =>
    if stemR.any (fun c => !(c == '.')) then
      (String.mk ((stemR ++ dirR).reverse), String.mk ('.' :: extR.reverse))
    else (p, "")

/-- `os.path.join(a, b)` on posix. -/
def pathJoin (a b : String) : String :=
  if startsWithStr b ("/") then b
  else if a = "" || endsWithStr a ("/") then a ++ b
  else a ++ "/" ++ b

/-- `os.path.join(*parts)` for a non-empty list. -/
def joinParts : List String → String
  | [] => ""
  | h :: t => t.foldl pathJoin h

/-- Split on single path-separator characters (`/` and `\`).  After the
caller filters out empty parts this agrees with the source's
`re.split(r"[\\/]+", ...)` followed by the same filter. -/
def splitSepChars : List Char → List (List Char)
  | [] => [[]]
  | c :: rest =>
    let r := splitSepChars rest
    if c == '/' || c == '\\' then [] :: r
    else
      match r with
      | h :: t => (c :: h) :: t
      | [] => [[c]]

def splitSeps (s : String) : List String := (splitSepChars s.data).map String.mk

/-! ## `safe_segment` (auto_move_organized.py, lines 185-194) -/

/-- The first replacement pass: `segment.replace("\\", "_").replace("/", "_")`. -/
def slashToUnderscore (c : Char) : Char :=
  if c == '\\' || c == '/' then '_' else c

/-- The second pass: `re.sub(r'[<>:"|?*]', "_", segment)`. -/
def illegalToUnderscore (c : Char) : Char :=
  if c == '<' || c == '>' || c == ':' || c == '\"' || c == '|' || c == '?' || c == '*'
  then '_' else c

/-- `safe_segment`: strip, replace separators and illegal characters with
underscores, and fall back to `"_"` when the result is empty. -/
def safe_segment (segment : String) : String :=
  let cleaned := ((stripChars segment.data).map slashToUnderscore).map illegalToUnderscore
  if cleaned.isEmpty then "_" else String.mk cleaned

/-! ## `build_template_vars` (auto_move_organized.py, lines 221-313) -/

/-- The fixed `^(\d{4})-(\d{2})-(\d{2})` prefix match used for scene dates:
`("", "", "")` when the prefix does not match. -/
def matchDatePrefix (s : String) : String × String × String :=
  match s.data with
  | y1 :: y2 :: y3 :: y4 :: h1 :: m1 :: m2 :: h2 :: d1 :: d2 :: _ =>
    if y1.isDigit && y2.isDigit && y3.isDigit && y4.isDigit && h1 == '-' &&
       m1.isDigit && m2.isDigit && h2 == '-' && d1.isDigit && d2.isDigit then
      (String.mk [y1, y2, y3, y4], String.mk [m1, m2], String.mk [d1, d2])
    else ("", "", "")
  | _ => ("", "", "")

/-- Whether the fixed date regex matches at the start of the string. -/
def hasDatePrefix (s : String) : Bool :=
  match s.data with
  | y1 :: y2 :: y3 :: y4 :: h1 :: m1 :: m2 :: h2 :: d1 :: d2 :: _ =>
    y1.isDigit && y2.isDigit && y3.isDigit && y4.isDigit && h1 == '-' &&
    m1.isDigit && m2.isDigit && h2 == '-' && d1.isDigit && d2.isDigit
  | _ => false

/-- A performer/tag entry the joins cannot trip over: if it is a dict with a
truthy `name`, that name is a string. -/
def nameOkEntry (p : Json) : Bool :=
  match p with
  | .obj pf => !(dictGet pf "name").truthy || (dictGet pf "name").isStr
  | _ => true

/-- The `performer_names` collection loop: keep `p["name"]` for every dict
entry with a truthy name. -/
def collectNames : List Json → List Json
  | [] => []
  | p :: rest =>
    match p with
    | .obj fs =>
      if (dictGet fs "name").truthy then dictGet fs "name" :: collectNames rest
      else collectNames rest
    | _ => collectNames rest

/-- `build_template_vars(scene, file_path)`: the variable dictionary used by
the path template and the sidecar writer.  It raises (models: returns
`.error`) when the `date` value is present but not a string, when
`performers`/`tags` are present but not iterable, or when a collected name
is not a string (the `"-".join` / `", ".join` calls). -/
def build_template_vars (scene : PyDict) (file_path : String) :
    Except String (List (String × Json)) := do
  let original_basename := basename file_path
  let (original_name, ext0) := splitext original_basename
  let ext := lstripDot ext0
  let scene_id := dictGet scene "id"
  let scene_title := pyOr (dictGet scene "title") (.str (""))
  let scene_date := pyOr (dictGet scene "date") (.str (""))
  let code := pyOr (dictGet scene "code") (.str (""))
  let director := pyOr (dictGet scene "director") (.str (""))
  let dateStr ←
    match scene_date with
    | .str s => Except.ok s
    | _ => Except.error ("TypeError: expected string or bytes-like object")
  let (date_year, date_month, date_day) := matchDatePrefix dateStr
  let studio := dictGet scene "studio"
  let (studio_name, studio_id) :=
    match studio with
    | .obj fs => (pyOr (dictGet fs "name") (.str ("")),
                  pyStr (pyOr (dictGet fs "id") (.str (""))))
    | _ => (.str (""), "")
  let performersIt ← pyIter (dictGetD scene "performers" (.arr []))
  let performer_names := collectNames performersIt
  let performers_str ← pyJoin ("-") performer_names
  let first_performer := (performer_names.head?).getD (.str (""))
  let performer_count : Int := performer_names.length
  let tagsIt ← pyIter (dictGetD scene "tags" (.arr []))
  let tag_names := collectNames tagsIt
  let tags_str ← pyJoin (", ") tag_names
  let groups := pyOr (dictGet scene "groups") (.arr [])
  let group_name :=
    match groups with
    | .arr (g0 :: _) =>
      (match g0 with
       | .obj g0f =>
         (match dictGet g0f "group" with
          | .obj gf => pyOr (dictGet gf "name") (.str (""))
          | _ => .str (""))
       | _ => .str (""))
    | _ => .str ("")
  let rating100 := dictGet scene "rating100"
  let rating : Json :=
    match rating100 with
    | .null => .str ("")
    | v => .str (pyStr v)
  let stash_ids := pyOr (dictGet scene "stash_ids") (.arr [])
  let external_id :=
    match stash_ids with
    | .arr (s0 :: _) =>
      (match s0 with
       | .obj s0f => pyOr (dictGet s0f "stash_id") (.str (""))
       | _ => .str (""))
    | _ => .str ("")
  .ok [("id", scene_id),
       ("scene_title", scene_title),
       ("scene_date", scene_date),
       ("date_year", .str date_year),
       ("date_month", .str date_month),
       ("date_day", .str date_day),
       ("studio", studio_name),
       ("studio_name", studio_name),
       ("studio_id", .str studio_id),
       ("code", code),
       ("director", director),
       ("performers", .str performers_str),
       ("first_performer", first_performer),
       ("performer_count", .num performer_count),
       ("tag_names", .str tags_str),
       ("tags", .str tags_str),
       ("group_name", group_name),
       ("rating100", rating100),
       ("rating", rating),
       ("original_basename", .str original_basename),
       ("original_name", .str original_name),
       ("ext", .str ext),
       ("external_id", external_id)]

/-- Read one of the always-present keys of the variable map as a string. -/
def varGet (vars : List (String × Json)) (k : String) : Json :=
  (List.lookup k vars).getD .null

/-! ## Template expansion (`str.format`) and `build_target_path` -/

/-- `template.format(**vars)` for the simple `{name}` placeholders the
plugin documents (no conversions, no format specs, `{{`/`}}` escapes).
Missing keys raise `KeyError` whose `str()` is the quoted key, matching the
message interpolated by `build_target_path`.  Fuel-based so the kernel can
evaluate it; `length + 1` fuel always suffices because every step consumes
at least one character. -/
def formatCharsAux (vars : List (String × Json)) : Nat → List Char → Except String (List Char)
  | 0, _ => .error ("ValueError: format ran out of fuel")
  | _, [] => .ok []
  | fuel + 1, c :: rest =>
    if c == '\x7b' then
      match rest with
      | d :: rest2 =>
        if d == '\x7b' then (formatCharsAux vars fuel rest2).map (fun t => '\x7b' :: t)
        else
          let key := rest.takeWhile (fun e => !(e == '\x7d'))
          let rest2 := rest.dropWhile (fun e => !(e == '\x7d'))
          match rest2 with
          | [] => .error ("ValueError: Single brace encountered in format string")
          | _ :: rest3 =>
            match List.lookup (String.mk key) vars with
            | some v => (formatCharsAux vars fuel rest3).map (fun t => (pyStr v).data ++ t)
            | none => .error ("\x27" ++ String.mk key ++ "\x27")
      | [] => .error ("ValueError: Single brace encountered in format string")
    else if c == '\x7d' then
      match rest with
      | d :: rest2 =>
        if d == '\x7d' then (formatCharsAux vars fuel rest2).map (fun t => '\x7d' :: t)
        else .error ("ValueError: Single brace encountered in format string")
      | [] => .error ("ValueError: Single brace encountered in format string")
    else (formatCharsAux vars fuel rest).map (fun t => c :: t)

def formatMap (template : String) (vars : List (String × Json)) : Except String String :=
  (formatCharsAux vars (template.data.length + 1) template.data).map String.mk

/-- The sanitisation of the expanded relative path inside
`build_target_path`: split on separators, drop empty parts, clean each part,
re-join; an empty part list falls back to the original basename. -/
def relCleanOf (rel_path original_basename : String) : String :=
  let rel_parts := ((splitSeps rel_path).filter (fun p => !(p == ""))).map safe_segment
  match rel_parts with
  | [] => original_basename
  | h :: t => joinParts (h :: t)

/-- If the cleaned relative path has no extension and the source file has
one, append `"." ++ ext` (source line 371-372). -/
def withExt (rel_path_clean ext : String) : String :=
  if (splitext rel_path_clean).2 = "" ∧ ¬ ext = "" then rel_path_clean ++ ("." ++ ext)
  else rel_path_clean

/-- The settings dictionary, typed (`load_settings` resolves the
`{value: ...}` wrappers before the pipeline runs; the fields below are the
ones the embedded code reads). -/
structure Settings where
  target_root : String
  filename_template : String
  move_only_organized : Bool
  dry_run : Bool
  write_nfo : Bool
  download_poster : Bool
  download_actor_images : Bool
  export_actor_nfo : Bool
  overlay_studio_logo_on_poster : Bool
  translate_enable : Bool
  translate_api_base : String
  translate_api_key : String
  translate_model : String
  translate_plot : Bool
  translate_title : Bool
  /-- kept verbatim; its float parse is only forwarded into the request body -/
  translate_temperature : String
  translate_prompt : String
  /-- the `server_connection` dict stored into settings by `main` -/
  server_connection : PyDict

/-- `build_target_path(scene, file_path, settings)` (lines 316-375): expand
the template, sanitise, restore the extension and join onto the target
root.  Raises when the root is unset, when `build_template_vars` raises, and
re-raises template errors as `命名模板解析失败: ...`. -/
def build_target_path (scene : PyDict) (file_path : String) (st : Settings) :
    Except String String := do
  let target_root := pyStrip st.target_root
  let template := pyStrip st.filename_template
  if target_root = "" then Except.error ("目标目录(target_root)未配置")
  else do
    let vars ← build_template_vars scene file_path
    let original_basename := pyStr (varGet vars ("original_basename"))
    let ext := pyStr (varGet vars ("ext"))
    match formatMap template vars with
    | .error e => Except.error ("命名模板解析失败: " ++ e)
    | .ok rel_path =>
      let rel_path_clean := relCleanOf rel_path original_basename
      .ok (pathJoin target_root (withExt rel_path_clean ext))

/-! ## XML documents (`xml.etree.ElementTree` as the sidecar writers use it) -/

/-- An XML element: tag, attributes, text and child elements. -/
inductive Xml where
  | el (tag : String) (attrs : List (String × String)) (text : String) (children : List Xml)

def Xml.tag : Xml → String
  | .el t _ _ _ => t

def Xml.text : Xml → String
  | .el _ _ tx _ => tx

def Xml.children : Xml → List Xml
  | .el _ _ _ cs => cs

mutual
/-- The element together with all its descendants. -/
def xmlElems : Xml → List Xml
  | .el t a tx cs => .el t a tx cs :: xmlElemsL cs

def xmlElemsL : List Xml → List Xml
  | [] => []
  | x :: xs => xmlElems x ++ xmlElemsL xs
end

/-- An element that serialises as an empty element: no text, no children. -/
def xmlIsEmptyEl (e : Xml) : Bool := e.text == "" && e.children.isEmpty

/-! ## Filesystem model -/

/-- File content: downloaded binaries are abstract ids supplied by the
network oracle; written sidecars store the generated document. -/
inductive FileData where
  | bin (contentId : Nat)
  | doc (x : Xml)

/-- The filesystem: regular files with their content, plus the directories
known to exist (directory trees are flat in the model: `makedirs` records
the single directory it is asked for). -/
structure FS where
  files : List (String × FileData)
  dirs : List String

def fsLookup (fs : FS) (p : String) : Option FileData := List.lookup p fs.files

/-- `os.path.exists` for a regular file. -/
def fsExists (fs : FS) (p : String) : Bool := (fsLookup fs p).isSome

/-- `os.path.isdir`. -/
def fsIsDir (fs : FS) (d : String) : Bool :=
  fs.dirs.contains d || fs.files.any (fun e => dirname e.1 = d)

/-- `os.makedirs(d, exist_ok=True)`. -/
def fsMakedirs (fs : FS) (d : String) : FS :=
  if fs.dirs.contains d then fs else { fs with dirs := fs.dirs ++ [d] }

def fsRemoveFile (fs : FS) (p : String) : FS :=
  { fs with files := fs.files.filter (fun e => !(e.1 == p)) }

/-- Create or replace the file at `p`. -/
def fsWrite (fs : FS) (p : String) (c : FileData) : FS :=
  { fs with files := (fsRemoveFile fs p).files ++ [(p, c)] }

/-- `shutil.move(src, dst)` where `dst` is a full file path (the pipeline
always passes one): raises when the source is missing, replaces an existing
destination file. -/
def fsMove (fs : FS) (src dst : String) : Except String FS :=
  match fsLookup fs src with
  | none => .error ("FileNotFoundError: " ++ src)
  | some c => .ok (fsWrite (fsRemoveFile fs src) dst c)

/-- `os.listdir(dir)`: the basenames of the regular files directly in `dir`
(the pipeline only ever inspects files of the listing). -/
def fsListDir (fs : FS) (dir : String) : List String :=
  (fs.files.filter (fun e => dirname e.1 = dir)).map (fun e => basename e.1)

/-! ## Network oracles -/

/-- One HTTP download attempt as the network resolves it: whether it
succeeds, and on success the response's content type, final URL (after
redirects) and an abstract content id. -/
structure DlAttempt where
  ok : Bool
  contentType : String
  respUrl : String
  content : Nat

/-- An HTTP response for the translation API: `.error` when the request
itself raises, otherwise the status and the parsed JSON body (`.error`
inside when `resp.json()` raises). -/
structure HttpOk where
  status : Nat
  jsonBody : Except String Json

abbrev HttpResp := Except String HttpOk

/-- The ambient world of the pipeline: download outcomes keyed by URL,
destination and attempt number; translation responses for the title and
plot calls; and the image-processing facts the logo overlay consults
(whether Pillow/cairosvg import, image dimensions by content id, SVG
sniffing, conversion and compositing results).  The pixel arithmetic itself
is in the embedding; only the raster data is abstract. -/
structure Env where
  dl : String → String → Nat → DlAttempt
  trTitle : HttpResp
  trPlot : HttpResp
  pillowAvailable : Bool
  cairosvgAvailable : Bool
  imageDims : Nat → Option (Int × Int)
  isSvgContent : Nat → Bool
  svgToPng : Nat → Int → Option Nat
  composite : Nat → Nat → Nat

/-! ## `_download_binary` (auto_move_organized.py, lines 626-696) -/

/-- Everything after the first `://`, or the input unchanged when there is
none. -/
def listDropScheme : List Char → List Char
  | [] => []
  | c :: rest =>
    if (':' :: '/' :: '/' :: []).isPrefixOf (c :: rest) then rest.drop 2
    else listDropScheme rest

/-- `urlparse(u).path`, for the URL shapes the plugin sees: strip the
scheme/host when present and cut query and fragment. -/
def urlPath (u : String) : String :=
  let l := u.data
  let rest :=
    if listIsSub (':' :: '/' :: '/' :: []) l then
      (listDropScheme l).dropWhile (fun c => !(c == '/'))
    else l
  String.mk (rest.takeWhile (fun c => !(c == '?') && !(c == '#')))

/-- The extension-guessing step of `_download_binary` when `detect_ext` is
set: content type first, then the extension of the (response) URL path, and
only appended when the destination does not already end in a known image
extension. -/
def guessFinalPath (url dst : String) (att : DlAttempt) (detect : Bool) : String :=
  if ¬ detect then dst
  else
    let ct := lowerStr att.contentType
    let g1 :=
      if strContains ct ("image/") then
        if strContains ct ("jpeg") || strContains ct ("jpg") then ".jpg"
        else if strContains ct ("png") then ".png"
        else if strContains ct ("webp") then ".webp"
        else if strContains ct ("gif") then ".gif"
        else if strContains ct ("svg") then ".svg"
        else ""
      else ""
    let g2 :=
      if g1 = "" then (splitext (urlPath (if att.respUrl = "" then url else att.respUrl))).2
      else g1
    let lp := lowerStr dst
    let known := endsWithStr lp (".jpg") || endsWithStr lp (".jpeg") ||
      endsWithStr lp (".png") || endsWithStr lp (".webp") || endsWithStr lp (".gif")
    if ¬ g2 = "" ∧ ¬ known then dst ++ g2 else dst

/-- The observable outcome of `_download_binary`: success flag, the path the
bytes were written to, the content id, how many attempts were made and the
sleeps performed between attempts (in seconds). -/
structure DlResult where
  ok : Bool
  finalPath : String
  content : Nat
  attemptsMade : Nat
  sleeps : List Nat

/-- The retry loop `for attempt in range(1, max_attempts + 1)`: on failure
sleep `2 * attempt` seconds unless this was the last attempt. -/
def dlLoop (url dst : String) (detect : Bool) (oracle : Nat → DlAttempt) :
    List Nat → DlResult
  | [] => ⟨false, dst, 0, 0, []⟩
  | a :: rest =>
    let att := oracle a
    if att.ok then ⟨true, guessFinalPath url dst att detect, att.content, 1, []⟩
    else if rest.isEmpty then ⟨false, dst, 0, 1, []⟩
    else
      let r := dlLoop url dst detect oracle rest
      ⟨r.ok, r.finalPath, r.content, r.attemptsMade + 1, 2 * a :: r.sleeps⟩

/-- `_download_binary(url, dst_path, settings, detect_ext)`, with the
network supplied by `oracle` (attempt number ↦ outcome); `max_attempts = 3`. -/
def download_binary (url dst : String) (detect : Bool) (oracle : Nat → DlAttempt) : DlResult :=
  if url = "" then ⟨false, dst, 0, 0, []⟩
  else dlLoop url dst detect oracle [1, 2, 3]

/-- The filesystem effect of a successful download: parent directory
created, bytes written at the final path. -/
def fsAfterDownload (fs : FS) (r : DlResult) : FS :=
  if r.ok then fsWrite (fsMakedirs fs (dirname r.finalPath)) r.finalPath (.bin r.content)
  else fs

/-! ## `build_absolute_url` (auto_move_organized.py, lines 197-218) -/

def build_absolute_url (url : String) (st : Settings) : String :=
  if url = "" then url
  else if startsWithStr url ("http://") || startsWithStr url ("https://") then url
  else
    let server_conn := st.server_connection
    let scheme := dictGetD server_conn ("Scheme") (.str ("http"))
    let host := dictGetD server_conn ("Host") (.str ("localhost"))
    let port := dictGet server_conn ("Port")
    let base := pyStr scheme ++ "://" ++ pyStr host
    let base := if port.truthy then base ++ ":" ++ pyStr port else base
    let url2 := if ¬ startsWithStr url ("/") then "/" ++ url else url
    base ++ url2

/-- `build_absolute_url` as called on a raw Json value: the source calls it
on values read from the scene record; a truthy non-string raises
`AttributeError` inside `startswith`. -/
def buildAbsUrlE (j : Json) (st : Settings) : Except String String :=
  match j with
  | .str u => .ok (build_absolute_url u st)
  | _ => .error ("AttributeError: object has no attribute startswith")

/-! ## `ai_translate.py` -/

def DEFAULT_TRANSLATE_PROMPT : String :=
  "You are a professional translator for adult video metadata. " ++
  "Translate the given text into natural, fluent Simplified Chinese " ++
  "suitable for use as a media title or description. " ++
  "Return ONLY the translated text, without explanations or surrounding quotes."

/-- The extracted translation configuration (`_get_translate_config`).
`temperature` keeps the raw setting string: its float parse (default 0.3)
is only forwarded into the request body, which the model does not observe. -/
structure TrCfg where
  enabled : Bool
  translate_title : Bool
  translate_plot : Bool
  base_url : String
  api_key : String
  model : String
  temperature : String
  prompt : String

def _get_translate_config (st : Settings) : TrCfg :=
  let base_url := rstripSlash (pyStrip st.translate_api_base)
  let api_key := pyStrip st.translate_api_key
  let model := pyStrip st.translate_model
  let temperature := pyStrip st.translate_temperature
  let prompt0 := pyStrip st.translate_prompt
  { enabled := st.translate_enable
    translate_title := st.translate_title
    translate_plot := st.translate_plot
    base_url := base_url
    api_key := api_key
    model := model
    temperature := temperature
    prompt := if prompt0 = "" then DEFAULT_TRANSLATE_PROMPT else prompt0 }

def _build_chat_completions_url (base_url : String) : String :=
  if base_url = "" then "" else base_url ++ "/chat/completions"

/-- `data["choices"][0]["message"]["content"]`; any failing step raises and
is caught by the caller, hence `Option`. -/
def extractContent (data : Json) : Option Json :=
  match pyIndexKey data ("choices") with
  | .error _ => none
  | .ok choices =>
    match pyIndex choices 0 with
    | .error _ => none
    | .ok first =>
      match pyIndexKey first ("message") with
      | .error _ => none
      | .ok msg =>
        match pyIndexKey msg ("content") with
        | .error _ => none
        | .ok content => some content

/-- `_call_openai_compatible_api_for_text(text, cfg, field)`: returns the
stripped translation, or `none` on missing configuration, request failure
(`raise_for_status` fires for status >= 400), unparsable body or missing
content field.  The request body (model, temperature, prompt, text) is only
sent to the external service; the response is the `resp` oracle. -/
def _call_openai_compatible_api_for_text (_text : Json) (cfg : TrCfg) (resp : HttpResp) :
    Option String :=
  let api_url := _build_chat_completions_url cfg.base_url
  if api_url = "" || cfg.api_key = "" || cfg.model = "" then none
  else
    match resp with
    | .error _ => none
    | .ok r =>
      if r.status ≥ 400 then none
      else
        match r.jsonBody with
        | .error _ => none
        | .ok data =>
          match extractContent data with
          | none => none
          | some c =>
            some (pyStrip (match c with
              | .str s => s
              | j => pyStr j))

/-- `translate_title_and_plot(title, plot, settings)` with one response
oracle per call the function may make. -/
def translate_title_and_plot (title plot : Json) (st : Settings)
    (respTitle respPlot : HttpResp) : Option String × Option String :=
  let cfg := _get_translate_config st
  if ¬ cfg.enabled then (none, none)
  else if ¬ cfg.translate_title ∧ ¬ cfg.translate_plot then (none, none)
  else
    let tt := if cfg.translate_title ∧ title.truthy then
        _call_openai_compatible_api_for_text title cfg respTitle
      else none
    let tp := if cfg.translate_plot ∧ plot.truthy then
        _call_openai_compatible_api_for_text plot cfg respPlot
      else none
    (tt, tp)

/-- `True` exactly when the response carries a translation in the expected
message field of a successful request. -/
def respDeliversContent (r : HttpResp) : Bool :=
  match r with
  | .error _ => false
  | .ok k =>
    decide (k.status < 400) &&
      (match k.jsonBody with
       | .error _ => false
       | .ok d => (extractContent d).isSome)

/-! ## `write_nfo_for_scene` (auto_move_organized.py, lines 699-906) -/

/-- The `<title>` composition (lines 764-771): the original title alone, or
`{title}.{translated}` when the translation is truthy. -/
def titleForNfo (base_title : Json) (translated_title : Option String) : Json :=
  match translated_title with
  | some s => if ¬ s = "" then .str (pyStr base_title ++ "." ++ s) else base_title
  | none => base_title

/-- The `<plot>` choice (lines 757-762): the translation when truthy, else
the original. -/
def finalPlot (plot : Json) (translated_plot : Option String) : Json :=
  match translated_plot with
  | some s => if ¬ s = "" then .str s else plot
  | none => plot

/-- `_set_text` / `_set_child`: skip `None`, skip values whose `str()` strips
to empty, otherwise emit one element with the stripped text. -/
def set_el (tag : String) (value : Json) : List Xml :=
  match value with
  | .null => []
  | v =>
    let text := pyStrip (pyStr v)
    if text = "" then [] else [Xml.el tag [] text []]

/-- The runtime/fileinfo file search (lines 720-732): the first dict entry
of `files` with a truthy `duration`, paired with the formatted runtime in
minutes (empty when `float()` fails on the duration). -/
def findFileInfo : List Json → Option (String × PyDict)
  | [] => none
  | f :: rest =>
    match f with
    | .obj ff =>
      if (dictGet ff "duration").truthy then
        let runtime :=
          match pyFloatInt (dictGet ff "duration") with
          | some v => intToStr (roundHalfEven v 60)
          | none => ""
        some (runtime, ff)
      else findFileInfo rest
    | _ => findFileInfo rest

/-- `f"{float(width) / float(height):.3f}"` on exact rationals: the value
rounded half-to-even at three decimals, rendered with exactly three
fractional digits. -/
def formatFixed3 (w h : Int) : String :=
  let (w, h) := if h < 0 then (-w, -h) else (w, h)
  let m := roundHalfEven (w * 1000) h
  let sign := if m < 0 then "-" else ""
  let a := m.natAbs
  let frac := a % 1000
  let fracStr := natToStr frac
  let pad := String.mk (List.replicate (3 - fracStr.data.length) '0')
  sign ++ natToStr (a / 1000) ++ "." ++ pad ++ fracStr

/-- The `<fileinfo><streamdetails>` block (lines 818-857), built for the
file entry `findFileInfo` selected. -/
def fileInfoBlock (ff : PyDict) : Xml :=
  let width := dictGet ff "width"
  let height := dictGet ff "height"
  let duration_seconds : Json :=
    match dictGet ff "duration" with
    | .null => .null
    | d =>
      if d.truthy then
        match pyFloatInt d with
        | some v => .num (roundHalfEven v 1)
        | none => .null
      else .null
  let bitrate_kbps : Json :=
    match dictGet ff "bit_rate" with
    | .null => .null
    | b =>
      if b.truthy then
        match pyFloatInt b with
        | some v => .num (roundHalfEven v 1000)
        | none => .null
      else .null
  let aspect : Json :=
    if width.truthy ∧ height.truthy then
      match pyFloatInt width, pyFloatInt height with
      | some w, some h => if h = 0 then .null else .str (formatFixed3 w h)
      | _, _ => .null
    else .null
  let videoChildren :=
    set_el ("codec") (dictGet ff "video_codec") ++
    set_el ("width") width ++
    set_el ("height") height ++
    set_el ("aspect") aspect ++
    set_el ("durationinseconds") duration_seconds ++
    set_el ("bitrate") bitrate_kbps ++
    set_el ("filesize") (dictGet ff "size")
  let audioChildren := set_el ("codec") (dictGet ff "audio_codec")
  Xml.el ("fileinfo") [] ""
    [Xml.el ("streamdetails") [] ""
      [Xml.el ("video") [] "" videoChildren, Xml.el ("audio") [] "" audioChildren]]

/-- The children of the `<movie>` root, given the already-iterated fallible
inputs (variable map, first URL, file/tag/performer lists) and the
translation outcome. -/
def nfoChildren (scene : PyDict) (video_path : String) (vars : List (String × Json))
    (url0 : Json) (filesList tagsList perfList : List Json)
    (tt tp : Option String) : List Xml :=
  let title := pyOr (varGet vars ("scene_title"))
    (pyOr (varGet vars ("original_name")) (.str (basename video_path)))
  let plot := pyOr (dictGet scene "details") (.str (""))
  let studio := pyOr (varGet vars ("studio_name")) (.str (""))
  let director := pyOr (varGet vars ("director")) (.str (""))
  let date := pyOr (varGet vars ("scene_date")) (.str (""))
  let year := pyOr (varGet vars ("date_year")) (.str (""))
  let code := pyOr (varGet vars ("code")) (.str (""))
  let rating := varGet vars ("rating")
  let external_id := pyOr (varGet vars ("external_id")) (.str (""))
  let fileInfo := findFileInfo filesList
  let runtime_minutes : Json :=
    match fileInfo with
    | some (rt, _) => .str rt
    | none => .str ("")
  let tag_names := collectNames tagsList
  let collection_name := pyOr (varGet vars ("group_name")) (.str (""))
  let final_plot := finalPlot plot tp
  let title_for_nfo := titleForNfo title tt
  let original_for_field :=
    if code.truthy then Json.str (pyStr code ++ " " ++ pyStr title) else title
  List.flatten
    [set_el ("title") title_for_nfo,
     set_el ("originaltitle") original_for_field,
     set_el ("sorttitle") title_for_nfo,
     set_el ("year") year,
     set_el ("premiered") date,
     set_el ("releasedate") date,
     set_el ("runtime") runtime_minutes,
     set_el ("plot") final_plot,
     set_el ("originalplot") plot,
     set_el ("studio") studio,
     set_el ("director") director,
     set_el ("id") (pyOr external_id (.str (pyStr (pyOr (varGet vars ("id")) (.str ("")))))),
     set_el ("code") code,
     (if rating.truthy then set_el ("rating") rating else []),
     set_el ("url") url0,
     (match fileInfo with
      | some (_, ff) => [fileInfoBlock ff]
      | none => []),
     (tag_names.map (fun n => set_el ("genre") n ++ set_el ("tag") n)).flatten,
     (if collection_name.truthy then
        set_el ("set") collection_name ++ set_el ("collection") collection_name
      else []),
     (if external_id.truthy then
        [Xml.el ("uniqueid") [("type", "stashdb"), ("default", "true")] (pyStr external_id) []]
      else []),
     (if (varGet vars ("id")).truthy then
        [Xml.el ("uniqueid") [("type", "stash"), ("default", "false")]
          (pyStr (varGet vars ("id"))) []]
      else []),
     (perfList.map (fun p =>
       match p with
       | .obj pf =>
         if (dictGet pf "name").truthy then
           [Xml.el ("actor") [] "" [Xml.el ("name") [] (pyStr (dictGet pf "name")) []]]
         else []
       | _ => [])).flatten]

/-- The `<movie>` document `write_nfo_for_scene` serialises, with the
translation outcome as a parameter (the call itself is wrapped in
`try/except` by the writer and never propagates).  `.error` models the
raises the writer does not guard: a malformed `urls`, `files`, `tags` or
`performers` value, or a raise out of `build_template_vars`. -/
def writeNfoDoc (scene : PyDict) (video_path : String) (tt tp : Option String) :
    Except String Xml := do
  let vars ← build_template_vars scene video_path
  let urls := pyOr (dictGet scene "urls") (.arr [])
  let url0 ← if urls.truthy then pyIndex urls 0 else Except.ok (.str (""))
  let filesList ← pyIter (pyOr (dictGet scene "files") (.arr []))
  let tagsList ← pyIter (pyOr (dictGet scene "tags") (.arr []))
  let perfList ← pyIter (pyOr (dictGet scene "performers") (.arr []))
  .ok (Xml.el ("movie") [] ""
    (nfoChildren scene video_path vars url0 filesList tagsList perfList tt tp))

/-! ## `move_related_subtitle_files` (auto_move_organized.py, lines 1329-1407) -/

def SUBTITLE_EXTS : List String := [".srt", ".ass", ".ssa", ".vtt", ".sub", ".sup"]

/-- The loop body over the source directory listing; the whole loop sits in
one `try`, so a raise keeps the moves already made and skips the rest (no
raise is reachable in the model: every listed name exists). -/
def subtitleLoop (src_stem dst_stem src_dir dst_dir : String) (dry_run : Bool) :
    List String → FS → FS
  | [], fs => fs
  | name :: rest, fs =>
    let step :=
      let full_src := pathJoin src_dir name
      let ext := (splitext name).2
      if ¬ (SUBTITLE_EXTS.contains (lowerStr ext)) then .ok fs
      else if ¬ startsWithStr name src_stem then .ok fs
      else
        let suffix := dropLeftStr name src_stem.data.length
        let new_name := dst_stem ++ suffix
        let full_dst := pathJoin dst_dir new_name
        if full_src = full_dst then .ok fs
        else if fsExists fs full_dst then .ok fs
        else if dry_run then .ok fs
        else fsMove (fsMakedirs fs dst_dir) full_src full_dst
    match step with
    | .ok fs2 => subtitleLoop src_stem dst_stem src_dir dst_dir dry_run rest fs2
    | .error _ => fs

def move_related_subtitle_files (src_video_path dst_video_path : String)
    (st : Settings) (fs : FS) : FS :=
  let src_dir := dirname src_video_path
  let dst_dir := dirname dst_video_path
  if src_dir = "" || ¬ fsIsDir fs src_dir then fs
  else
    let src_stem := (splitext (basename src_video_path)).1
    let dst_stem := (splitext (basename dst_video_path)).1
    if src_stem = "" || dst_stem = "" then fs
    else subtitleLoop src_stem dst_stem src_dir dst_dir st.dry_run
      (fsListDir fs src_dir) fs

/-! ## `write_nfo_for_scene`: the write itself -/

def write_nfo_for_scene (video_path : String) (scene : PyDict) (st : Settings)
    (fs : FS) (env : Env) : Except String FS := do
  if ¬ st.write_nfo then .ok fs
  else do
    let vars ← build_template_vars scene video_path
    let title := pyOr (varGet vars ("scene_title"))
      (pyOr (varGet vars ("original_name")) (.str (basename video_path)))
    let plot := pyOr (dictGet scene "details") (.str (""))
    -- the translate call is inside `try/except`; the embedding is total
    let (tt, tp) := translate_title_and_plot title plot st env.trTitle env.trPlot
    let doc ← writeNfoDoc scene video_path tt tp
    let nfo_path := (splitext video_path).1 ++ ".nfo"
    if st.dry_run then .ok fs
    else .ok (fsWrite (fsMakedirs fs (dirname nfo_path)) nfo_path (.doc doc))

/-! ## `write_actor_nfo` (lines 1206-1265) -/

def write_actor_nfo (actor_dir : String) (performer : PyDict) (st : Settings) (fs : FS) : FS :=
  if ¬ st.export_actor_nfo then fs
  else if ¬ (dictGet performer "name").truthy then fs
  else
    let doc := Xml.el ("person") [] ""
      (set_el ("name") (dictGet performer "name") ++
       set_el ("gender") (dictGet performer "gender") ++
       set_el ("country") (dictGet performer "country") ++
       set_el ("birthdate") (dictGet performer "birthdate") ++
       set_el ("height_cm") (dictGet performer "height_cm") ++
       set_el ("measurements") (dictGet performer "measurements") ++
       set_el ("fake_tits") (dictGet performer "fake_tits") ++
       set_el ("disambiguation") (dictGet performer "disambiguation"))
    let nfo_path := pathJoin actor_dir ("actor.nfo")
    if st.dry_run then fs
    else fsWrite (fsMakedirs fs actor_dir) nfo_path (.doc doc)

/-! ## `download_actor_images` (lines 1268-1326) -/

/-- The per-performer loop, threading the set of sanitised names already
seen within this scene. -/
def actorLoop (actors_root : String) (st : Settings) (env : Env) :
    List Json → List String → FS → Except String FS
  | [], _, fs => .ok fs
  | p :: rest, seen, fs =>
    match p with
    | .obj pf =>
      if ¬ (dictGet pf "name").truthy then actorLoop actors_root st env rest seen fs
      else do
        let nameStr ←
          match dictGet pf "name" with
          | .str s => Except.ok s
          | _ => Except.error ("TypeError: strip on non-string performer name")
        let safe_name := safe_segment nameStr
        if seen.contains safe_name then actorLoop actors_root st env rest seen fs
        else do
          let actor_dir := pathJoin actors_root safe_name
          let fs := if ¬ st.dry_run then fsMakedirs fs actor_dir else fs
          let image_url := dictGet pf "image_path"
          let fs ←
            if st.download_actor_images ∧ image_url.truthy then do
              let dst_path := pathJoin actor_dir ("folder.jpg")
              let abs_url ← buildAbsUrlE image_url st
              if st.dry_run then Except.ok fs
              else if fsExists fs dst_path then Except.ok fs
              else
                Except.ok (fsAfterDownload fs
                  (download_binary abs_url dst_path false (env.dl abs_url dst_path)))
            else Except.ok fs
          let fs := write_actor_nfo actor_dir pf st fs
          actorLoop actors_root st env rest (seen ++ [safe_name]) fs
    | _ => actorLoop actors_root st env rest seen fs

def download_actor_images_fn (scene : PyDict) (st : Settings) (fs : FS) (env : Env) :
    Except String FS := do
  if ¬ st.download_actor_images ∧ ¬ st.export_actor_nfo then .ok fs
  else do
    let performers := pyOr (dictGet scene "performers") (.arr [])
    if ¬ performers.truthy then .ok fs
    else do
      let target_root := pyStrip st.target_root
      if target_root = "" then .ok fs
      else do
        let actors_root := pathJoin target_root ("actors")
        let fs := if ¬ st.dry_run then fsMakedirs fs actors_root else fs
        let pl ← pyIter performers
        actorLoop actors_root st env pl [] fs

/-! ## `overlay_studio_logo_on_poster` (lines 989-1203) -/

/-- The known image extensions the overlay step probes for. -/
def OVERLAY_EXTS : List String := [".jpg", ".jpeg", ".png", ".webp", ".gif", ".svg"]

/-- Find the first `base ++ ext` that exists, falling back to the bare base. -/
def findWithExts (fs : FS) (base : String) (exts : List String) : Option String :=
  match (exts.map (fun e => base ++ e)).find? (fun c => fsExists fs c) with
  | some c => some c
  | none => if fsExists fs base then some base else none

/-- The logo overlay: every guard of the source is embedded; the raster
facts (image opening, dimensions, SVG sniffing/conversion, compositing)
come from the `Env` oracle, and the arithmetic on the dimensions is the
source's (Python `int()` truncation is `Int.div` toward zero; all
dimensions are non-negative in practice). -/
def overlay_studio_logo_on_poster (poster_base : String) (scene : PyDict)
    (st : Settings) (fs : FS) (env : Env) : Except String FS := do
  if ¬ st.overlay_studio_logo_on_poster then .ok fs
  else if st.dry_run then .ok fs
  else do
    let studio := pyOr (dictGet scene "studio") (.obj [])
    let studio_name := pyOr (← pyGetE studio ("name")) (.str (""))
    let studio_image := pyOr (← pyGetE studio ("image_path")) (.str (""))
    if ¬ studio_name.truthy || ¬ studio_image.truthy then .ok fs
    else if strContains (pyStr studio_image) ("default=true") then .ok fs
    else
      match findWithExts fs poster_base OVERLAY_EXTS with
      | none => .ok fs
      | some poster_path =>
        if ¬ env.pillowAvailable then .ok fs
        else do
          let posterContent ←
            match fsLookup fs poster_path with
            | some (.bin c) => Except.ok c
            | _ => Except.ok 0
          match env.imageDims posterContent with
          | none => .ok fs
          | some (pw, ph) => do
            let poster_dir := dirname poster_path
            let safe_name := safe_segment (pyStr studio_name)
            let logo_base := pathJoin poster_dir (safe_name ++ "-logo")
            let (fs, logoPathOpt) ←
              match findWithExts fs logo_base OVERLAY_EXTS with
              | some lp => Except.ok (fs, some lp)
              | none => do
                let abs_logo_url ← buildAbsUrlE studio_image st
                let r := download_binary abs_logo_url logo_base true
                  (env.dl abs_logo_url logo_base)
                if ¬ r.ok then Except.ok (fs, none)
                else
                  let fs := fsAfterDownload fs r
                  Except.ok (fs, findWithExts fs logo_base OVERLAY_EXTS)
            match logoPathOpt with
            | none => .ok fs
            | some logo_path => do
              let logoContent ←
                match fsLookup fs logo_path with
                | some (.bin c) => Except.ok c
                | _ => Except.ok 0
              let logo_ext := lowerStr (splitext logo_path).2
              let (fs, logo_path, logoContent, abort) ←
                if logo_ext = ".svg" || env.isSvgContent logoContent then
                  if ¬ env.cairosvgAvailable then Except.ok (fs, logo_path, logoContent, true)
                  else
                    let target_height_svg := (ph * 15).tdiv 100
                    if target_height_svg ≤ 0 then Except.ok (fs, logo_path, logoContent, true)
                    else
                      match env.svgToPng logoContent target_height_svg with
                      | none => Except.ok (fs, logo_path, logoContent, true)
                      | some png =>
                        let png_logo_path := (splitext logo_path).1 ++ ".png"
                        Except.ok (fsWrite fs png_logo_path (.bin png), png_logo_path, png, false)
                else Except.ok (fs, logo_path, logoContent, false)
              if abort then .ok fs
              else
                match env.imageDims logoContent with
                | none => .ok fs
                | some (lw, lh) =>
                  if pw ≤ 0 || ph ≤ 0 then .ok fs
                  else if lw ≤ 0 || lh ≤ 0 then .ok fs
                  else
                    let target_height := (ph * 15).tdiv 100
                    if target_height ≤ 0 then .ok fs
                    else
                      let target_width := (target_height * lw).tdiv lh
                      if target_width ≤ 0 then .ok fs
                      else
                        let max_width := (pw * 50).tdiv 100
                        if max_width ≤ 0 then .ok fs
                        else
                          let (_target_width, target_height) :=
                            if target_width > max_width then
                              (max_width, (target_height * max_width).tdiv target_width)
                            else (target_width, target_height)
                          if target_height ≤ 0 then .ok fs
                          else
                            let newPoster := env.composite posterContent logoContent
                            let fs := fsWrite fs poster_path (.bin newPoster)
                            let fs := fsRemoveFile fs logo_path
                            let fs := OVERLAY_EXTS.foldl
                              (fun acc e => fsRemoveFile acc (logo_base ++ e)) fs
                            .ok fs

/-! ## `download_scene_art` (lines 909-986) -/

def POSTER_EXTS : List String := [".jpg", ".jpeg", ".png", ".webp", ".gif"]

def download_scene_art (video_path : String) (scene : PyDict) (st : Settings)
    (fs : FS) (env : Env) : Except String FS := do
  if ¬ st.download_poster then .ok fs
  else do
    let paths := pyOr (dictGet scene "paths") (.obj [])
    let g1 ← pyGetE paths ("screenshot")
    let g2 ← pyGetE paths ("webp")
    let poster_url := pyOr g1 (pyOr g2 (.str ("")))
    if ¬ poster_url.truthy then .ok fs
    else do
      let video_dir := dirname video_path
      let base_name := (splitext (basename video_path)).1
      let poster_base := pathJoin video_dir (base_name ++ "-poster")
      if (POSTER_EXTS.map (fun e => poster_base ++ e)).any (fun c => fsExists fs c) then
        .ok fs
      else do
        let abs_url ← buildAbsUrlE poster_url st
        if st.dry_run then .ok fs
        else do
          let r := download_binary abs_url poster_base true (env.dl abs_url poster_base)
          if ¬ r.ok then .ok fs
          else
            let fs := fsAfterDownload fs r
            -- the overlay call is inside its own `try/except`
            match overlay_studio_logo_on_poster poster_base scene st fs env with
            | .error _ => .ok fs
            | .ok fs2 => .ok fs2

/-! ## `post_process_moved_file` and `move_file` (lines 378-417, 1410-1428) -/

/-- `post_process_moved_file`: the caller wraps the whole call in one
`try/except`, so a raise in one step keeps the earlier steps' effects and
skips the remaining steps. -/
def post_process_moved_file (src_video_path dst_video_path : String) (scene : PyDict)
    (st : Settings) (fs : FS) (env : Env) : FS :=
  let fs1 := move_related_subtitle_files src_video_path dst_video_path st fs
  match write_nfo_for_scene dst_video_path scene st fs1 env with
  | .error _ => fs1
  | .ok fs2 =>
    match download_scene_art dst_video_path scene st fs2 env with
    | .error _ => fs2
    | .ok fs3 =>
      match download_actor_images_fn scene st fs3 env with
      | .error _ => fs3
      | .ok fs4 => fs4

/-- `move_file(scene, file_obj, settings)`: note that the source-path /
destination-existence skip checks of the specification are commented out in
the source (lines 391-401); the code proceeds straight to
`shutil.move`. -/
def move_file (scene : PyDict) (file_obj : PyDict) (st : Settings) (fs : FS) (env : Env) :
    Bool × FS :=
  let src_j := dictGet file_obj "path"
  if ¬ src_j.truthy then (false, fs)
  else
    match src_j with
    | .str src =>
      (match build_target_path scene src st with
       | .error _ => (false, fs)
       | .ok dst =>
         let dst_dir := dirname dst
         if st.dry_run then
           (true, post_process_moved_file src dst scene st fs env)
         else
           let fsm := fsMakedirs fs dst_dir
           match fsMove fsm src dst with
           | .error _ => (false, fsm)
           | .ok fs2 => (true, post_process_moved_file src dst scene st fs2 env))
    | _ => (false, fs)  -- a non-str path raises inside build_target_path; caught

/-! ## `process_scene` (lines 420-454) -/

/-- `_is_file_organized` (lines 438-444); the file argument is unused by
the source closure as well. -/
def is_file_organized (scene : PyDict) (st : Settings) : Bool :=
  if ¬ st.move_only_organized then true
  else if dictHasKey scene "organized" then (dictGet scene "organized").truthy
  else false

/-- The `for f in files` loop: a non-dict entry raises out of `move_file`
(`file_obj.get` is unguarded there) and aborts the scene. -/
def processFiles (scene : PyDict) (st : Settings) (env : Env) :
    List Json → FS → Except String (Nat × FS)
  | [], fs => .ok (0, fs)
  | f :: rest, fs =>
    if ¬ is_file_organized scene st then processFiles scene st env rest fs
    else
      match f with
      | .obj fobj =>
        let (moved, fs2) := move_file scene fobj st fs env
        (processFiles scene st env rest fs2).map
          (fun r => ((if moved then 1 else 0) + r.1, r.2))
      | _ => .error ("AttributeError: object has no attribute get: path")

def process_scene (scene : Json) (st : Settings) (fs : FS) (env : Env) :
    Except String (Nat × FS) :=
  if ¬ scene.truthy then .ok (0, fs)
  else
    match scene with
    | .obj sceneD =>
      let files := pyOr (dictGet sceneD "files") (.arr [])
      if ¬ files.truthy then .ok (0, fs)
      else do
        let fl ← pyIter files
        processFiles sceneD st env fl fs
    | _ => .error ("AttributeError: object has no attribute get: files")

/-! ## `handle_hook_or_task` (lines 1431-1528) -/

/-- The metadata backend as the orchestrator sees it: `find_scene` for the
hook path (which the code never reaches) and the concatenation of the
`find_scenes` pages for the task path. -/
structure StashOracle where
  findScene : Int → Option Json
  allScenes : List Json

/-- The task-mode loop over all scenes: skip unorganized scenes, process the
rest, accumulating the organized count and the moved-file count. -/
def taskLoop (st : Settings) (env : Env) :
    List Json → Nat → Nat → FS → Except String (Nat × Nat × FS)
  | [], organized, moved, fs => .ok (organized, moved, fs)
  | scene :: rest, organized, moved, fs => do
    let sidJ ← pyIndexKey scene ("id")
    let _sid ← pyInt sidJ
    let orgJ ← pyGetE scene ("organized")
    if ¬ orgJ.truthy then taskLoop st env rest organized moved fs
    else do
      let r ← process_scene scene st fs env
      taskLoop st env rest (organized + 1) (moved + r.1) r.2

/-- `handle_hook_or_task(stash, args, settings)`.  In hook mode (a
`hookContext` with an `id` or `scene_id`) the source returns at line 1452,
before any scene fetch; lines 1454-1483 (fetch, organized check,
`process_scene`) are unreachable code after that `return`. -/
def handle_hook_or_task (stash : StashOracle) (args : Json) (st : Settings)
    (fs : FS) (env : Env) : Except String (String × FS) := do
  let argsD := pyOr args (.obj [])
  let _mode := pyOr (← pyGetE argsD ("mode")) (.str ("all"))
  let dry_run := st.dry_run
  let hook_ctx := pyOr (← pyGetE argsD ("hookContext")) (.obj [])
  let scene_id := pyOr (← pyGetE hook_ctx ("id")) (← pyGetE hook_ctx ("scene_id"))
  if ¬ scene_id.isNull then
    .ok ("Processed scene " ++ pyStr scene_id ++ ", Hook 场景保存日志直接返回", fs)
  else do
    let scenes := stash.allScenes
    let total := scenes.length
    if total = 0 then .ok ("No scenes found", fs)
    else do
      let r ← taskLoop st env scenes 0 0 fs
      .ok ("Scanned " ++ natToStr total ++ " scenes, organized=True: " ++
        natToStr r.1 ++ ", moved files: " ++ natToStr r.2.1 ++
        ", dry_run=" ++ pyStr (.bool dry_run), r.2.2)

/-! ## `AutoMover.move_file` (autoMove.py, lines 178-222) -/

/-- The collision handling of the bulk mover: when the target exists, probe
`base_1`, `base_2`, ... until a free name is found (the `while` loop; a free
name always exists within `|files| + 1` probes by pigeonhole, which the
model uses as the search bound). -/
def autoMoverTargetFile (fs : FS) (target_path filename : String) : String :=
  let target0 := pathJoin target_path filename
  if ¬ fsExists fs target0 then target0
  else
    let (base, ext) := splitext filename
    let candidate := fun (k : Nat) => pathJoin target_path (base ++ "_" ++ natToStr k ++ ext)
    match ((List.range (fs.files.length + 1)).map (fun k => k + 1)).find?
        (fun k => ¬ fsExists fs (candidate k)) with
    | some k => candidate k
    | none => candidate (fs.files.length + 1)

/-- `AutoMover.move_file(source_path, scene_id)`: skip when the source is
missing; move/copy/hardlink to the (possibly suffixed) target; afterwards
flip the scene's organized flag (to `false` when `use_organized_flag`, else
to `true`) — the flag update is returned as the third component. -/
def autoMover_move_file (fs : FS) (target_path move_mode : String)
    (use_organized_flag : Bool) (source_path : String) : Bool × FS × Option Bool :=
  if ¬ fsExists fs source_path then (false, fs, none)
  else
    let filename := basename source_path
    let target_file := autoMoverTargetFile fs target_path filename
    let fs := fsMakedirs fs target_path
    let content := (fsLookup fs source_path).getD (.bin 0)
    let fs2 :=
      if move_mode = "copy" then fsWrite fs target_file content
      else if move_mode = "hardlink" then fsWrite fs target_file content
      else
        match fsMove fs source_path target_file with
        | .ok f => f
        | .error _ => fs
    (true, fs2, some (¬ use_organized_flag))

/-! ## `fix_posters_match_video.py` -/

/-- `split_by_ext(filenames, image_exts, video_exts)` (lines 70-88): the
extension sets hold bare lowercase extensions. -/
def split_by_ext (imgExts vidExts : List String) :
    List String → List String × List String
  | [] => ([], [])
  | name :: rest =>
    let (images, videos) := split_by_ext imgExts vidExts rest
    let ext := (splitext name).2
    if ext = "" then (images, videos)
    else
      let ext_clean := lowerStr (lstripDot ext)
      if imgExts.contains ext_clean then (name :: images, videos)
      else if vidExts.contains ext_clean then (images, name :: videos)
      else (images, videos)

/-- One iteration of the image loop of `fix_posters_match_video` (lines
111-139), over the names currently present in the directory: the rename
decided for this image, if any. -/
def posterStep (video_base : String) (present : List String) (img_name : String) :
    List String × Option (String × String) :=
  let (img_base, img_ext) := splitext img_name
  if img_ext = "" then (present, none)
  else
    let ext_clean := lowerStr (lstripDot img_ext)
    if ¬ endsWithStr img_base ("-poster") then (present, none)
    else
      let imgPre := dropRightStr img_base 7
      if imgPre = video_base then (present, none)
      else
        let dst_name := video_base ++ "-poster." ++ ext_clean
        if present.contains dst_name then (present, none)
        else ((present.erase img_name) ++ [dst_name], some (img_name, dst_name))

def posterLoop (video_base : String) (present : List String) :
    List String → List String × List (String × String)
  | [] => (present, [])
  | img :: rest =>
    match posterStep video_base present img with
    | (p, none) => posterLoop video_base p rest
    | (p, some r) =>
      let (p2, rs) := posterLoop video_base p rest
      (p2, r :: rs)

/-- `fix_posters_match_video` restricted to one directory (the walk applies
this to each directory's filename listing independently): the final listing
and the renames performed, in order. -/
def fix_posters_in_dir (names imgExts vidExts : List String) :
    List String × List (String × String) :=
  let (image_files, video_files) := split_by_ext imgExts vidExts names
  if image_files.isEmpty || video_files.isEmpty then (names, [])
  else if ¬ video_files.length = 1 then (names, [])
  else
    match video_files with
    | [] => (names, [])
    | video_name :: _ =>
      let video_base := (splitext video_name).1
      posterLoop video_base names image_files

/-! ## Concrete fixtures used by the claim theorems and witnesses -/

/-- An environment whose network always fails and whose image tooling is
absent; the concrete theorems that use it do not depend on it. -/
def envFail : Env :=
  { dl := fun _ _ _ => ⟨false, "", "", 0⟩
    trTitle := .error ("connection refused")
    trPlot := .error ("connection refused")
    pillowAvailable := false
    cairosvgAvailable := false
    imageDims := fun _ => none
    isSvgContent := fun _ => false
    svgToPng := fun _ _ => none
    composite := fun _ _ => 0 }

/-- Baseline settings: target root `/dst`, template `{scene_title}`, dry-run
off, every optional feature off. -/
def stBase : Settings :=
  { target_root := "/dst", filename_template := "{scene_title}",
    move_only_organized := true, dry_run := false, write_nfo := false,
    download_poster := false, download_actor_images := false, export_actor_nfo := false,
    overlay_studio_logo_on_poster := false, translate_enable := false,
    translate_api_base := "", translate_api_key := "", translate_model := "",
    translate_plot := false, translate_title := false, translate_temperature := "",
    translate_prompt := "", server_connection := [] }

def sceneDemo : PyDict := [("title", .str ("Demo"))]

def fileDemo : PyDict := [("path", .str ("/src/video.mp4"))]

/-- A filesystem in which both the source file and the resolved destination
`/dst/Demo.mp4` already exist, with different contents. -/
def fsBoth : FS :=
  { files := [("/src/video.mp4", .bin 1), ("/dst/Demo.mp4", .bin 2)], dirs := ["/src", "/dst"] }

/-- Hook-mode arguments: a hook context carrying scene id 7. -/
def argsHook : Json := .obj [("hookContext", .obj [("id", .num 7)])]

/-- A backend whose scene 7 exists and is NOT organized (hook mode should
skip it, per the specification). -/
def stashUnorganized : StashOracle :=
  { findScene := fun i => if i = 7 then
      some (.obj [("id", .num 7), ("organized", .bool false),
                  ("files", .arr [.obj [("id", .num 1), ("path", .str ("/src/video.mp4"))]])])
    else none
    allScenes := [] }

/-- A scene whose only file has a duration but no codec data: the generated
sidecar then contains empty `<video>` and `<audio>` elements. -/
def sceneDur : PyDict := [("files", .arr [.obj [("duration", .num 60)]])]

/-- A scene whose `performers` key is present but null. -/
def sceneNullPerformers : PyDict := [("performers", Json.null)]

/-- A filesystem in which the bulk mover's flat target name
`/dst/video.mp4` is already taken. -/
def fsAuto : FS :=
  { files := [("/src/video.mp4", .bin 1), ("/dst/video.mp4", .bin 2)], dirs := ["/src", "/dst"] }

/-- The tags of the container elements the NFO writer emits even when all
their optional fields are absent (plus the degenerate `movie` root). -/
def allowedEmptyTag (t : String) : Bool := t == "movie" || t == "video" || t == "audio"

/-- Every element of the forest (including descendants) that serialises as
an empty element is one of the allowed containers. -/
def xmlGoodL (l : List Xml) : Prop :=
  ∀ e ∈ xmlElemsL l, xmlIsEmptyEl e = true → allowedEmptyTag e.tag = true

/-- `stBase` with a template whose placeholder is undefined. -/
def stMissing : Settings := { stBase with filename_template := "{missing_field}" }

/-- The variable map `build_template_vars` yields for the empty scene and
source `/src/video.mp4` (used to discharge hypotheses concretely). -/
def varsEmptyScene : List (String × Json) :=
  [("id", .null), ("scene_title", .str ("")), ("scene_date", .str ("")),
   ("date_year", .str ("")), ("date_month", .str ("")), ("date_day", .str ("")),
   ("studio", .str ("")), ("studio_name", .str ("")), ("studio_id", .str ("")),
   ("code", .str ("")), ("director", .str ("")), ("performers", .str ("")),
   ("first_performer", .str ("")), ("performer_count", .num 0),
   ("tag_names", .str ("")), ("tags", .str ("")), ("group_name", .str ("")),
   ("rating100", .null), ("rating", .str ("")),
   ("original_basename", .str ("video.mp4")), ("original_name", .str ("video")),
   ("ext", .str ("mp4")), ("external_id", .str (""))]

/-- A scene with a date that has no `YYYY-MM-DD` prefix, one performer and
an empty tag list. -/
def sceneMalformedDate : PyDict :=
  [("date", .str ("2024/05/01")),
   ("performers", .arr [.obj [("name", .str ("Jane Doe"))]]),
   ("tags", .arr [])]

/-- The variable map for `sceneDemo` and source `/dl/video.mp4`. -/
def varsDemoScene : List (String × Json) :=
  [("id", .null), ("scene_title", .str ("Demo")), ("scene_date", .str ("")),
   ("date_year", .str ("")), ("date_month", .str ("")), ("date_day", .str ("")),
   ("studio", .str ("")), ("studio_name", .str ("")), ("studio_id", .str ("")),
   ("code", .str ("")), ("director", .str ("")), ("performers", .str ("")),
   ("first_performer", .str ("")), ("performer_count", .num 0),
   ("tag_names", .str ("")), ("tags", .str ("")), ("group_name", .str ("")),
   ("rating100", .null), ("rating", .str ("")),
   ("original_basename", .str ("video.mp4")), ("original_name", .str ("video")),
   ("ext", .str ("mp4")), ("external_id", .str (""))]

/-- Settings with the translator enabled and fully configured. -/
def stTranslate : Settings :=
  { stBase with
    translate_enable := true
    translate_title := true
    translate_plot := true
    translate_api_base := "http://api/v1"
    translate_api_key := "k"
    translate_model := "m" }

/-- Validity of a rename sequence against an evolving directory listing:
each step's destination is absent at the moment the rename is applied (so
no rename ever overwrites a file), and the listing is updated as
`os.rename` does. -/
def renames_ok : List String → List (String × String) → Prop
  | _, [] => True
  | present, (s, d) :: rest =>
    present.contains d = false ∧ renames_ok ((present.erase s) ++ [d]) rest

/-! # Theorems

Helper lemmas first, then one theorem per claim (with a witness when the
theorem carries hypotheses). -/

/-! ## Lemmas about stripping and character maps (for the sanitiser) -/

theorem length_dropWhile_le_self (p : Char → Bool) (l : List Char) :
    (l.dropWhile p).length ≤ l.length := by
  induction l with
  | nil => simp
  | cons c rest ih =>
    by_cases h : p c
    · simp [List.dropWhile_cons, h]
      exact Nat.le_succ_of_le ih
    · simp [List.dropWhile_cons, h]

theorem dropWhile_dropWhile (p : Char → Bool) (l : List Char) :
    (l.dropWhile p).dropWhile p = l.dropWhile p := by
  induction l with
  | nil => simp
  | cons c rest ih =>
    by_cases h : p c
    · simp [List.dropWhile_cons, h, ih]
    · simp [List.dropWhile_cons, h]

theorem dropWhile_map_comm (p : Char → Bool) (f : Char → Char)
    (hf : ∀ c, p (f c) = p c) (l : List Char) :
    (l.map f).dropWhile p = (l.dropWhile p).map f := by
  induction l with
  | nil => simp
  | cons c rest ih =>
    by_cases h : p c
    · simp [List.dropWhile_cons, hf, h, ih]
    · simp [List.dropWhile_cons, hf, h]

theorem stripChars_map_comm (f : Char → Char) (hf : ∀ c, isPySpace (f c) = isPySpace c)
    (l : List Char) : stripChars (l.map f) = (stripChars l).map f := by
  unfold stripChars
  rw [dropWhile_map_comm isPySpace f hf, ← List.map_reverse,
    dropWhile_map_comm isPySpace f hf, List.map_reverse]

theorem dropWhile_of_prefix (p : Char → Bool) (l q : List Char)
    (hl : l.dropWhile p = l) (hq : q <+: l) : q.dropWhile p = q := by
  cases l with
  | nil =>
    have : q = [] := List.prefix_nil.mp hq
    simp [this]
  | cons c rest =>
    have hc : p c = false := by
      by_cases h : p c
      · rw [List.dropWhile_cons, if_pos h] at hl
        have := length_dropWhile_le_self p rest
        have hlen := congrArg List.length hl
        simp at hlen
        omega
      · simpa using h
    cases q with
    | nil => simp
    | cons d q' =>
      have hd : d = c := by
        rcases hq with ⟨t, ht⟩
        have := congrArg (fun x => x.head?) ht
        simpa using this
      subst hd
      simp [List.dropWhile_cons, hc]

theorem stripChars_idem (l : List Char) : stripChars (stripChars l) = stripChars l := by
  unfold stripChars
  set a := (l.dropWhile isPySpace) with ha
  set b := ((a.reverse.dropWhile isPySpace)).reverse with hb
  have hfrontA : a.dropWhile isPySpace = a := dropWhile_dropWhile isPySpace l
  have hpre : b <+: a := by
    have h : a.reverse.dropWhile isPySpace <:+ a.reverse := List.dropWhile_suffix isPySpace
    have h2 := List.reverse_prefix.mpr h
    rwa [List.reverse_reverse] at h2
  have hfrontB : b.dropWhile isPySpace = b := dropWhile_of_prefix isPySpace a b hfrontA hpre
  rw [hfrontB, hb, List.reverse_reverse, dropWhile_dropWhile]

theorem charNorm_space (c : Char) :
    isPySpace (illegalToUnderscore (slashToUnderscore c)) = isPySpace c := by
  by_cases h1 : c = '\\'
  · subst h1; decide
  by_cases h2 : c = '/'
  · subst h2; decide
  by_cases h3 : c = '<'
  · subst h3; decide
  by_cases h4 : c = '>'
  · subst h4; decide
  by_cases h5 : c = ':'
  · subst h5; decide
  by_cases h6 : c = '\"'
  · subst h6; decide
  by_cases h7 : c = '|'
  · subst h7; decide
  by_cases h8 : c = '?'
  · subst h8; decide
  by_cases h9 : c = '*'
  · subst h9; decide
  have e1 : slashToUnderscore c = c := by
    unfold slashToUnderscore
    rw [if_neg]; simp [h1, h2]
  have e2 : illegalToUnderscore c = c := by
    unfold illegalToUnderscore
    rw [if_neg]; simp [h3, h4, h5, h6, h7, h8, h9]
  rw [e1, e2]

theorem charNorm_idem (c : Char) :
    illegalToUnderscore (slashToUnderscore (illegalToUnderscore (slashToUnderscore c)))
      = illegalToUnderscore (slashToUnderscore c) := by
  by_cases h1 : c = '\\'
  · subst h1; decide
  by_cases h2 : c = '/'
  · subst h2; decide
  by_cases h3 : c = '<'
  · subst h3; decide
  by_cases h4 : c = '>'
  · subst h4; decide
  by_cases h5 : c = ':'
  · subst h5; decide
  by_cases h6 : c = '\"'
  · subst h6; decide
  by_cases h7 : c = '|'
  · subst h7; decide
  by_cases h8 : c = '?'
  · subst h8; decide
  by_cases h9 : c = '*'
  · subst h9; decide
  have e1 : slashToUnderscore c = c := by
    unfold slashToUnderscore
    rw [if_neg]; simp [h1, h2]
  have e2 : illegalToUnderscore c = c := by
    unfold illegalToUnderscore
    rw [if_neg]; simp [h3, h4, h5, h6, h7, h8, h9]
  rw [e1, e2, e1, e2]

/-- Claim C7: path-segment sanitisation is a pure, deterministic function
(it is a Lean function of its argument alone) and idempotent: sanitising an
already-sanitised segment returns it unchanged. -/
theorem safe_segment_idempotent (s : String) :
    safe_segment (safe_segment s) = safe_segment s := by
  by_cases h : (((stripChars s.data).map slashToUnderscore).map illegalToUnderscore).isEmpty
  · have e : safe_segment s = "_" := by
      unfold safe_segment
      rw [if_pos h]
    rw [e]
    decide
  · have e : safe_segment s = String.mk
        (((stripChars s.data).map slashToUnderscore).map illegalToUnderscore) := by
      unfold safe_segment
      rw [if_neg h]
    rw [e]
    have hm : ((stripChars s.data).map slashToUnderscore).map illegalToUnderscore
        = (stripChars s.data).map (fun c => illegalToUnderscore (slashToUnderscore c)) := by
      rw [List.map_map]
      rfl
    unfold safe_segment
    have hdata : (String.mk (((stripChars s.data).map slashToUnderscore).map
        illegalToUnderscore)).data
        = ((stripChars s.data).map slashToUnderscore).map illegalToUnderscore := rfl
    rw [hdata, hm]
    have hstrip : stripChars ((stripChars s.data).map
        (fun c => illegalToUnderscore (slashToUnderscore c)))
        = (stripChars s.data).map (fun c => illegalToUnderscore (slashToUnderscore c)) := by
      rw [stripChars_map_comm _ charNorm_space, stripChars_idem]
    rw [hstrip]
    have hmaps : (((stripChars s.data).map (fun c => illegalToUnderscore (slashToUnderscore c))).map
          slashToUnderscore).map illegalToUnderscore
        = (stripChars s.data).map (fun c => illegalToUnderscore (slashToUnderscore c)) := by
      rw [List.map_map, List.map_map]
      exact List.map_congr_left (fun a _ => charNorm_idem a)
    rw [hmaps]
    rw [hm] at h
    rw [if_neg h]

/-! ## Claims C1 and C2: the mover's collision policy and the hook path -/

/-- Claim C1 (code bug): the skip checks of the File Mover's contract
(source equals destination / source missing / destination exists) are
commented out in `move_file` (lines 391-401), so with both
`/src/video.mp4` and the resolved destination `/dst/Demo.mp4` present, the
code moves anyway and the destination's previous content (`bin 2`) is
replaced by the source's (`bin 1`) — an overwrite the specification rules
out.  The `autoMove.py` variant does not skip either: with its flat target
name taken it writes to a `_1`-suffixed name instead.  Both equalities hold
for every network environment. -/
theorem move_file_overwrites_existing_destination :
    fsExists fsBoth ("/dst/Demo.mp4") = true ∧
    fsLookup fsBoth ("/dst/Demo.mp4") = some (.bin 2) ∧
    (∀ env : Env, move_file sceneDemo fileDemo stBase fsBoth env
      = (true, { files := [("/dst/Demo.mp4", .bin 1)], dirs := ["/src", "/dst"] })) ∧
    autoMover_move_file fsAuto ("/dst") ("move") true ("/src/video.mp4")
      = (true, { files := [("/dst/video.mp4", .bin 2), ("/dst/video_1.mp4", .bin 1)],
                 dirs := ["/src", "/dst"] }, some false) :=
  ⟨rfl, rfl, fun _ => rfl, rfl⟩

/-- Claim C2 (code bug): in hook mode `handle_hook_or_task` returns at line
1452, before any scene fetch; the fetch / organized check /
`process_scene` code below it (lines 1454-1483) is unreachable.  The result
is the same fixed message for EVERY backend, settings, filesystem and
environment — in particular for `stashUnorganized`, whose scene 7 is not
organized and for which the specification requires a "skipped" result. -/
theorem hook_mode_returns_before_fetching_scene :
    (∀ (stash : StashOracle) (st : Settings) (fs : FS) (env : Env),
      handle_hook_or_task stash argsHook st fs env
        = .ok ("Processed scene 7, Hook 场景保存日志直接返回", fs)) ∧
    handle_hook_or_task stashUnorganized argsHook stBase ⟨[], []⟩ envFail
      = .ok ("Processed scene 7, Hook 场景保存日志直接返回", ⟨[], []⟩) :=
  ⟨fun _ _ _ _ => rfl, rfl⟩

/-! ## Claim C3: empty elements in the sidecar document -/

/-- Claim C3, counterexample: for the scene `sceneDur` (one file exposing
only a duration) the generated `<movie>` document contains an element that
serialises as an empty element — in fact an empty `<audio>` — so the claim
"the serialized sidecar never contains an empty element" is false as
stated. -/
theorem nfo_doc_contains_empty_element_cex :
    (writeNfoDoc sceneDur ("/m/v.mp4") none none).map
        (fun d => (xmlElems d).any (fun e => xmlIsEmptyEl e && (e.tag == "audio")))
      = .ok true := rfl

/-! ## Lemmas for the amended C3 statement -/

theorem xmlElemsL_append (a b : List Xml) :
    xmlElemsL (a ++ b) = xmlElemsL a ++ xmlElemsL b := by
  induction a with
  | nil => simp [xmlElemsL]
  | cons x xs ih => simp [xmlElemsL, ih, List.append_assoc]

theorem goodL_nil : xmlGoodL [] := by
  intro e he
  simp [xmlElemsL] at he

theorem goodL_append (a b : List Xml) (ha : xmlGoodL a) (hb : xmlGoodL b) :
    xmlGoodL (a ++ b) := by
  intro e he hemp
  rw [xmlElemsL_append] at he
  rcases List.mem_append.mp he with h | h
  · exact ha e h hemp
  · exact hb e h hemp

theorem goodL_el (t : String) (attrs : List (String × String)) (tx : String) (cs : List Xml)
    (hcs : xmlGoodL cs)
    (h : allowedEmptyTag t = true ∨ ¬ tx = "" ∨ ¬ cs = []) :
    xmlGoodL [Xml.el t attrs tx cs] := by
  intro e he hemp
  have he2 : e = Xml.el t attrs tx cs ∨ e ∈ xmlElemsL cs := by
    simpa [xmlElemsL, xmlElems] using he
  rcases he2 with he2 | he2
  · subst he2
    rcases h with h | h | h
    · simpa [Xml.tag] using h
    · exfalso
      simp [xmlIsEmptyEl, Xml.text, Xml.children] at hemp
      exact h hemp.1
    · exfalso
      simp [xmlIsEmptyEl, Xml.text, Xml.children] at hemp
      exact h hemp.2
  · exact hcs e he2 hemp

theorem goodL_textEl (t : String) (attrs : List (String × String)) (tx : String)
    (h : ¬ tx = "") : xmlGoodL [Xml.el t attrs tx []] :=
  goodL_el t attrs tx [] goodL_nil (Or.inr (Or.inl h))

theorem goodL_set_el (tag : String) (v : Json) : xmlGoodL (set_el tag v) := by
  cases v with
  | null => exact goodL_nil
  | bool b =>
    simp only [set_el]
    split_ifs with h
    · exact goodL_nil
    · exact goodL_textEl _ _ _ h
  | num n =>
    simp only [set_el]
    split_ifs with h
    · exact goodL_nil
    · exact goodL_textEl _ _ _ h
  | str s =>
    simp only [set_el]
    split_ifs with h
    · exact goodL_nil
    · exact goodL_textEl _ _ _ h
  | arr xs =>
    simp only [set_el]
    split_ifs with h
    · exact goodL_nil
    · exact goodL_textEl _ _ _ h
  | obj fs =>
    simp only [set_el]
    split_ifs with h
    · exact goodL_nil
    · exact goodL_textEl _ _ _ h

theorem goodL_flatten (ls : List (List Xml)) (h : ∀ x ∈ ls, xmlGoodL x) :
    xmlGoodL ls.flatten := by
  induction ls with
  | nil => simpa using goodL_nil
  | cons x xs ih =>
    rw [List.flatten_cons]
    exact goodL_append _ _ (h x (by simp)) (ih (fun y hy => h y (by simp [hy])))

theorem strNe_of_dataNe {s : String} (h : ¬ s.data = []) : ¬ s = "" :=
  fun he => h (by simp [he])

theorem natToStr_data_ne (n : Nat) : ¬ (natToStr n).data = [] := by
  unfold natToStr natDigitsAux
  by_cases h : n < 10 <;> simp [h]

theorem pyStr_ne_empty_of_truthy (v : Json) (h : v.truthy = true) : ¬ pyStr v = "" := by
  cases v with
  | null => simp [Json.truthy] at h
  | bool b =>
    cases b
    · simp [Json.truthy] at h
    · decide
  | num n =>
    apply strNe_of_dataNe
    show ¬ (intToStr n).data = []
    unfold intToStr
    split_ifs with hneg
    · rw [String.data_append]
      simp
    · exact natToStr_data_ne _
  | str s =>
    have : ¬ s.data = [] := by
      simp [Json.truthy, List.isEmpty_iff] at h
      simpa [List.isEmpty_iff] using h
    exact strNe_of_dataNe this
  | arr xs =>
    apply strNe_of_dataNe
    show ¬ (("[" ++ strIntercalate (", ") (pyReprList xs)) ++ "]").data = []
    rw [String.data_append, String.data_append]
    simp
  | obj fs =>
    apply strNe_of_dataNe
    show ¬ (("\x7b" ++ strIntercalate (", ") (pyReprFields fs)) ++ "\x7d").data = []
    rw [String.data_append, String.data_append]
    simp

theorem fileInfoBlock_good (ff : PyDict) : xmlGoodL [fileInfoBlock ff] := by
  unfold fileInfoBlock
  apply goodL_el _ _ _ _ _ (Or.inr (Or.inr (by simp)))
  show xmlGoodL ([Xml.el ("streamdetails") [] "" _])
  apply goodL_el _ _ _ _ _ (Or.inr (Or.inr (by simp)))
  show xmlGoodL ([Xml.el ("video") [] "" _] ++ [Xml.el ("audio") [] "" _])
  apply goodL_append
  · apply goodL_el _ _ _ _ _ (Or.inl (by decide))
    repeat' apply goodL_append
    all_goals apply goodL_set_el
  · apply goodL_el _ _ _ _ _ (Or.inl (by decide))
    apply goodL_set_el

theorem nfoChildren_good (scene : PyDict) (vp : String) (vars : List (String × Json))
    (url0 : Json) (filesList tagsList perfList : List Json) (tt tp : Option String) :
    xmlGoodL (nfoChildren scene vp vars url0 filesList tagsList perfList tt tp) := by
  unfold nfoChildren
  dsimp only
  apply goodL_flatten
  intro x hx
  simp only [List.mem_cons, List.not_mem_nil, or_false] at hx
  rcases hx with rfl|rfl|rfl|rfl|rfl|rfl|rfl|rfl|rfl|rfl|rfl|rfl|rfl|rfl|rfl|rfl|rfl|rfl|rfl|rfl|rfl
  · exact goodL_set_el _ _
  · exact goodL_set_el _ _
  · exact goodL_set_el _ _
  · exact goodL_set_el _ _
  · exact goodL_set_el _ _
  · exact goodL_set_el _ _
  · exact goodL_set_el _ _
  · exact goodL_set_el _ _
  · exact goodL_set_el _ _
  · exact goodL_set_el _ _
  · exact goodL_set_el _ _
  · exact goodL_set_el _ _
  · exact goodL_set_el _ _
  · split_ifs
    · exact goodL_set_el _ _
    · exact goodL_nil
  · exact goodL_set_el _ _
  · cases findFileInfo filesList with
    | none => exact goodL_nil
    | some r => exact fileInfoBlock_good r.2
  · apply goodL_flatten
    intro y hy
    rcases List.mem_map.mp hy with ⟨n, _, rfl⟩
    exact goodL_append _ _ (goodL_set_el _ _) (goodL_set_el _ _)
  · split_ifs
    · exact goodL_append _ _ (goodL_set_el _ _) (goodL_set_el _ _)
    · exact goodL_nil
  · split_ifs with h
    · exact goodL_textEl _ _ _ (pyStr_ne_empty_of_truthy _ h)
    · exact goodL_nil
  · split_ifs with h
    · exact goodL_textEl _ _ _ (pyStr_ne_empty_of_truthy _ h)
    · exact goodL_nil
  · apply goodL_flatten
    intro y hy
    rcases List.mem_map.mp hy with ⟨pj, _, rfl⟩
    cases pj with
    | obj pf =>
      dsimp only
      split_ifs with h
      · apply goodL_el _ _ _ _ _ (Or.inr (Or.inr (by simp)))
        exact goodL_textEl _ _ _ (pyStr_ne_empty_of_truthy _ h)
      · exact goodL_nil
    | null => exact goodL_nil
    | bool b => exact goodL_nil
    | num n => exact goodL_nil
    | str s => exact goodL_nil
    | arr xs => exact goodL_nil

theorem movieDoc_good (children : List Xml) (hch : xmlGoodL children) :
    ∀ e ∈ xmlElems (Xml.el ("movie") [] "" children),
      xmlIsEmptyEl e = true → allowedEmptyTag e.tag = true := by
  intro e he hemp
  have he2 : e = Xml.el ("movie") [] "" children ∨ e ∈ xmlElemsL children := by
    simpa [xmlElems] using he
  rcases he2 with rfl | he2
  · rfl
  · exact hch e he2 hemp

/-- Claim C3, amended: the sidecar writer never emits a FIELD as an empty
element — every element its omission logic produces carries non-empty
stripped text or non-empty children — but the document can still contain
empty container elements: the `<video>`/`<audio>` stream-detail containers
(emitted whenever a file record with a duration exists, even when all their
fields are absent) and, degenerately, an empty `<movie>` root.  Formally:
every empty element of a generated document has tag `movie`, `video` or
`audio`. -/
theorem nfo_doc_empty_elements_only_containers
    (scene : PyDict) (vp : String) (tt tp : Option String) (doc : Xml)
    (h : writeNfoDoc scene vp tt tp = .ok doc) :
    ∀ e ∈ xmlElems doc, xmlIsEmptyEl e = true → allowedEmptyTag e.tag = true := by
  unfold writeNfoDoc at h
  simp only [bind, Except.bind] at h
  cases hvars : build_template_vars scene vp with
  | error er => rw [hvars] at h; simp at h
  | ok vars =>
    rw [hvars] at h
    dsimp only at h
    repeat' split at h
    all_goals first
      | (injection h with h2
         subst h2
         exact movieDoc_good _ (nfoChildren_good _ _ _ _ _ _ _ _ _))
      | injection h

/-- Witness for C3's amended theorem at a concrete input: the empty scene's
document is the bare (empty) `<movie>` root, and the theorem applies to
it. -/
theorem nfo_doc_empty_elements_only_containers_witness :
    allowedEmptyTag (Xml.el ("movie") [] "" []).tag = true :=
  nfo_doc_empty_elements_only_containers [] "" none none (Xml.el ("movie") [] "" []) rfl
    (Xml.el ("movie") [] "" []) (by simp [xmlElems, xmlElemsL]) rfl

/-! ## Claim C4: unresolvable placeholders -/

theorem dataNe_of_strNe {s : String} (h : ¬ s = "") : ¬ s.data = [] := by
  intro hd
  apply h
  cases s
  simp at hd
  simp [hd]

theorem build_target_path_error_of_format_error
    (scene : PyDict) (st : Settings) (src : String)
    (vars : List (String × Json)) (msg : String)
    (hroot : ¬ pyStrip st.target_root = "")
    (hvars : build_template_vars scene src = .ok vars)
    (hfmt : formatMap (pyStrip st.filename_template) vars = .error msg) :
    build_target_path scene src st = .error ("命名模板解析失败: " ++ msg) := by
  unfold build_target_path
  simp only [bind, Except.bind]
  rw [if_neg hroot, hvars]
  dsimp only
  rw [hfmt]

theorem move_file_false_of_target_error
    (scene : PyDict) (fileObj : PyDict) (st : Settings) (src : String)
    (hpath : dictGet fileObj "path" = .str src)
    (hsrc : ¬ src = "")
    (herr : ∃ e, build_target_path scene src st = .error e) :
    ∀ (fs : FS) (env : Env), move_file scene fileObj st fs env = (false, fs) := by
  intro fs env
  obtain ⟨e, herr⟩ := herr
  unfold move_file
  rw [hpath]
  dsimp only
  have htr : (Json.str src).truthy = true := by
    simp [Json.truthy, List.isEmpty_iff]
    exact dataNe_of_strNe hsrc
  rw [if_neg (by simp [htr])]
  rw [herr]

theorem processFiles_cons (scene : PyDict) (st : Settings) (env : Env) (f : Json)
    (rest : List Json) (fs : FS) :
    processFiles scene st env (f :: rest) fs =
      if ¬ is_file_organized scene st then processFiles scene st env rest fs
      else
        match f with
        | .obj fobj =>
          (match move_file scene fobj st fs env with
           | (moved, fs2) =>
             (processFiles scene st env rest fs2).map
               (fun r => ((if moved then 1 else 0) + r.1, r.2)))
        | _ => .error ("AttributeError: object has no attribute get: path") := rfl

theorem processFiles_skip_failing_file
    (scene : PyDict) (fileObj : PyDict) (st : Settings) (env : Env)
    (hmf : ∀ (fs : FS), move_file scene fileObj st fs env = (false, fs)) :
    ∀ (l1 l2 : List Json) (fs : FS),
      processFiles scene st env (l1 ++ .obj fileObj :: l2) fs
        = processFiles scene st env (l1 ++ l2) fs := by
  intro l1 l2
  induction l1 with
  | nil =>
    intro fs
    simp only [List.nil_append]
    rw [processFiles_cons scene st env (.obj fileObj) l2 fs]
    by_cases ho : is_file_organized scene st
    · rw [if_neg (by simp [ho])]
      dsimp only
      rw [hmf fs]
      dsimp only
      cases hr : processFiles scene st env l2 fs with
      | error e => simp [hr, Except.map]
      | ok r => simp [hr, Except.map]
    · rw [if_pos (by simp [ho])]
  | cons x xs ih =>
    intro fs
    simp only [List.cons_append]
    rw [processFiles_cons scene st env x (xs ++ .obj fileObj :: l2) fs,
        processFiles_cons scene st env x (xs ++ l2) fs]
    by_cases ho : is_file_organized scene st
    · rw [if_neg (by simp [ho]), if_neg (by simp [ho])]
      cases x with
      | obj fobj2 =>
        dsimp only
        rcases hmv : move_file scene fobj2 st fs env with ⟨moved, fs2⟩
        rw [ih fs2]
      | null => rfl
      | bool b => rfl
      | num n => rfl
      | str s => rfl
      | arr xs2 => rfl
    · rw [if_pos (by simp [ho]), if_pos (by simp [ho])]
      exact ih fs

/-- Claim C4: when the filename template contains a placeholder that is not
a key of the variable map, `build_target_path` raises the descriptive,
recoverable `命名模板解析失败` configuration error (whose payload names the
missing key); `move_file` catches it and reports the file as not moved with
the filesystem untouched; and the per-scene file loop processes the
remaining files exactly as if the failing file were absent — the error
aborts only the current file's move. -/
theorem missing_placeholder_aborts_only_current_file
    (scene fileObj : PyDict) (st : Settings) (src : String)
    (vars : List (String × Json)) (msg : String)
    (hpath : dictGet fileObj "path" = .str src)
    (hsrc : ¬ src = "")
    (hroot : ¬ pyStrip st.target_root = "")
    (hvars : build_template_vars scene src = .ok vars)
    (hfmt : formatMap (pyStrip st.filename_template) vars = .error msg) :
    build_target_path scene src st = .error ("命名模板解析失败: " ++ msg) ∧
    (∀ (fs : FS) (env : Env), move_file scene fileObj st fs env = (false, fs)) ∧
    (∀ (l1 l2 : List Json) (fs : FS) (env : Env),
      processFiles scene st env (l1 ++ .obj fileObj :: l2) fs
        = processFiles scene st env (l1 ++ l2) fs) := by
  have h1 := build_target_path_error_of_format_error scene st src vars msg hroot hvars hfmt
  have h2 := move_file_false_of_target_error scene fileObj st src hpath hsrc ⟨_, h1⟩
  exact ⟨h1, h2, fun l1 l2 fs env =>
    processFiles_skip_failing_file scene fileObj st env (fun f => h2 f env) l1 l2 fs⟩

/-- Witness for C4 at a concrete input: the empty scene, the template
`{missing_field}` and the file `/src/video.mp4`. -/
theorem missing_placeholder_aborts_only_current_file_witness :
    build_target_path [] ("/src/video.mp4") stMissing
        = .error ("命名模板解析失败: " ++ "\x27missing_field\x27") ∧
    move_file [] fileDemo stMissing { files := [], dirs := [] } envFail
        = (false, { files := [], dirs := [] }) ∧
    processFiles [] stMissing envFail [.obj fileDemo] { files := [], dirs := [] }
        = processFiles [] stMissing envFail [] { files := [], dirs := [] } := by
  have T := missing_placeholder_aborts_only_current_file [] fileDemo stMissing
    ("/src/video.mp4") varsEmptyScene ("\x27missing_field\x27")
    rfl (by decide) (by decide) rfl rfl
  exact ⟨T.1, T.2.1 _ _, T.2.2 [] [] _ _⟩

/-! ## Claim C5: defensiveness of `build_template_vars` -/

/-- Claim C5, counterexample: for a scene record whose `performers` field is
present but null — a JSON-like dictionary the claim covers — building the
template variable map raises (`for p in scene.get("performers", [])`
iterates `None`), so "building the template variable map never raises" is
false as stated. -/
theorem build_template_vars_raises_on_null_performers :
    build_template_vars sceneNullPerformers ("/x/v.mp4")
      = .error ("TypeError: object is not iterable") := rfl

theorem matchDatePrefix_empty_of_not (s : String) (h : hasDatePrefix s = false) :
    matchDatePrefix s = ("", "", "") := by
  unfold matchDatePrefix
  unfold hasDatePrefix at h
  split
  next y1 y2 y3 y4 h1 m1 m2 h2 d1 d2 rest heq =>
    rw [heq] at h
    simp only at h
    rw [if_neg (by simp [h])]
  next => rfl

theorem collectNames_isStr (l : List Json) (hl : l.all nameOkEntry = true) :
    ∀ x ∈ collectNames l, x.isStr = true := by
  induction l with
  | nil => intro x hx; simp [collectNames] at hx
  | cons p rest ih =>
    have hp : nameOkEntry p = true := by
      have := List.all_eq_true.mp hl
      exact this p (by simp)
    have hrest : rest.all nameOkEntry = true := by
      apply List.all_eq_true.mpr
      intro x hx
      exact List.all_eq_true.mp hl x (by simp [hx])
    intro x hx
    cases p with
    | obj pf =>
      by_cases ht : (dictGet pf "name").truthy
      · rw [collectNames] at hx
        simp only [ht, if_true] at hx
        rcases List.mem_cons.mp hx with rfl | hx
        · unfold nameOkEntry at hp
          simpa [ht] using hp
        · exact ih hrest x hx
      · rw [collectNames] at hx
        simp only [ht] at hx
        exact ih hrest x (by simpa using hx)
    | null => exact ih hrest x (by simpa [collectNames] using hx)
    | bool b => exact ih hrest x (by simpa [collectNames] using hx)
    | num n => exact ih hrest x (by simpa [collectNames] using hx)
    | str s2 => exact ih hrest x (by simpa [collectNames] using hx)
    | arr xs => exact ih hrest x (by simpa [collectNames] using hx)

theorem pyJoinStrs_ok (l : List Json) (hl : ∀ x ∈ l, x.isStr = true) :
    ∃ strs, pyJoinStrs l = .ok strs := by
  induction l with
  | nil => exact ⟨[], rfl⟩
  | cons x xs ih =>
    have hx : x.isStr = true := hl x (by simp)
    cases x with
    | str s =>
      obtain ⟨strs, hs⟩ := ih (fun y hy => hl y (by simp [hy]))
      exact ⟨s :: strs, by rw [pyJoinStrs, hs]; rfl⟩
    | null => simp [Json.isStr] at hx
    | bool b => simp [Json.isStr] at hx
    | num n => simp [Json.isStr] at hx
    | arr a => simp [Json.isStr] at hx
    | obj o => simp [Json.isStr] at hx

/-- Claim C5, amended: for every scene record whose `date` value (after the
`or ""` default) is a string and whose `performers`/`tags` values (after
the `get(…, [])` default) are lists of entries whose truthy names are
strings, building the template variable map never raises; the year, month
and day variables are exactly the `YYYY-MM-DD` prefix-match decomposition,
which is empty when the date string does not begin with such a prefix.
(Without those typing conditions the function can raise — see the
counterexample.) -/
theorem build_template_vars_total_on_wellformed_scenes
    (scene : PyDict) (fp : String) (ds : String) (pxs txs : List Json)
    (hdate : pyOr (dictGet scene "date") (.str ("")) = .str ds)
    (hperf : dictGetD scene "performers" (.arr []) = .arr pxs)
    (hpok : pxs.all nameOkEntry = true)
    (htags : dictGetD scene "tags" (.arr []) = .arr txs)
    (htok : txs.all nameOkEntry = true) :
    (∃ vars, build_template_vars scene fp = .ok vars ∧
      List.lookup ("date_year") vars = some (.str ((matchDatePrefix ds).1)) ∧
      List.lookup ("date_month") vars = some (.str ((matchDatePrefix ds).2.1)) ∧
      List.lookup ("date_day") vars = some (.str ((matchDatePrefix ds).2.2))) ∧
    (hasDatePrefix ds = false → matchDatePrefix ds = ("", "", "")) := by
  refine ⟨?_, matchDatePrefix_empty_of_not ds⟩
  obtain ⟨pstrs, hps⟩ := pyJoinStrs_ok (collectNames pxs) (collectNames_isStr pxs hpok)
  obtain ⟨tstrs, hts⟩ := pyJoinStrs_ok (collectNames txs) (collectNames_isStr txs htok)
  rcases hmd : matchDatePrefix ds with ⟨dy, dmd⟩
  rcases dmd with ⟨dm, dd⟩
  unfold build_template_vars
  simp only [bind, Except.bind]
  rw [hdate]
  dsimp only
  rw [hmd]
  dsimp only
  rw [hperf]
  dsimp only [pyIter]
  unfold pyJoin
  rw [hps]
  dsimp only [Except.map]
  rw [htags]
  dsimp only [pyIter]
  rw [hts]
  dsimp only [Except.map]
  refine ⟨_, rfl, ?_, ?_, ?_⟩ <;> rfl

/-- Witness for C5's amended theorem at a concrete input: a scene with a
malformed date `2024/05/01`, one performer and no tags. -/
theorem build_template_vars_total_on_wellformed_scenes_witness :
    (∃ vars, build_template_vars sceneMalformedDate ("/a/v.mp4") = .ok vars ∧
      List.lookup ("date_year") vars
        = some (.str ((matchDatePrefix ("2024/05/01")).1)) ∧
      List.lookup ("date_month") vars
        = some (.str ((matchDatePrefix ("2024/05/01")).2.1)) ∧
      List.lookup ("date_day") vars
        = some (.str ((matchDatePrefix ("2024/05/01")).2.2))) ∧
    (hasDatePrefix ("2024/05/01") = false → matchDatePrefix ("2024/05/01") = ("", "", "")) :=
  build_template_vars_total_on_wellformed_scenes sceneMalformedDate ("/a/v.mp4")
    ("2024/05/01") [.obj [("name", .str ("Jane Doe"))]] []
    rfl rfl (by decide) rfl (by decide)

/-! ## Claim C6: extension restoration -/

theorem endsWithStr_append (a b : String) : endsWithStr (a ++ b) b = true := by
  unfold endsWithStr
  rw [String.data_append]
  unfold List.isSuffixOf
  rw [List.reverse_append]
  exact List.isPrefixOf_iff_prefix.mpr (List.prefix_append _ _)

theorem endsWithStr_pathJoin_append (a b c : String) :
    endsWithStr (pathJoin a (b ++ c)) c = true := by
  unfold pathJoin
  split_ifs with h1 h2
  · exact endsWithStr_append b c
  · rw [← String.append_assoc]
    exact endsWithStr_append (a ++ b) c
  · rw [← String.append_assoc (a ++ "/") b c]
    exact endsWithStr_append ((a ++ "/") ++ b) c

/-- Claim C6: when the sanitised expanded relative path has no extension and
the source file has one, the resolved target path is the join of the target
root with the relative path plus `"." ++ ext` — in particular it ends with
`"."` followed by the source file's original extension. -/
theorem target_path_appends_original_extension
    (scene : PyDict) (fp : String) (st : Settings)
    (vars : List (String × Json)) (rel : String)
    (hroot : ¬ pyStrip st.target_root = "")
    (hvars : build_template_vars scene fp = .ok vars)
    (hfmt : formatMap (pyStrip st.filename_template) vars = .ok rel)
    (hnoext : (splitext (relCleanOf rel (pyStr (varGet vars ("original_basename"))))).2 = "")
    (hext : ¬ pyStr (varGet vars ("ext")) = "") :
    build_target_path scene fp st
        = .ok (pathJoin (pyStrip st.target_root)
            (relCleanOf rel (pyStr (varGet vars ("original_basename")))
              ++ ("." ++ pyStr (varGet vars ("ext"))))) ∧
    (build_target_path scene fp st).map
        (fun t => endsWithStr t ("." ++ pyStr (varGet vars ("ext")))) = .ok true := by
  have h1 : build_target_path scene fp st
      = .ok (pathJoin (pyStrip st.target_root)
          (relCleanOf rel (pyStr (varGet vars ("original_basename")))
            ++ ("." ++ pyStr (varGet vars ("ext"))))) := by
    unfold build_target_path
    simp only [bind, Except.bind]
    rw [if_neg hroot, hvars]
    dsimp only
    rw [hfmt]
    dsimp only
    unfold withExt
    rw [if_pos ⟨hnoext, hext⟩]
  refine ⟨h1, ?_⟩
  rw [h1]
  dsimp only [Except.map]
  rw [endsWithStr_pathJoin_append]

/-- Witness for C6 at a concrete input: `sceneDemo`, template
`{scene_title}` and source `/dl/video.mp4` (the expanded path `Demo` has no
extension, the source has `mp4`). -/
theorem target_path_appends_original_extension_witness :
    build_target_path sceneDemo ("/dl/video.mp4") stBase
        = .ok (pathJoin (pyStrip stBase.target_root)
            (relCleanOf ("Demo") (pyStr (varGet varsDemoScene ("original_basename")))
              ++ ("." ++ pyStr (varGet varsDemoScene ("ext"))))) ∧
    (build_target_path sceneDemo ("/dl/video.mp4") stBase).map
        (fun t => endsWithStr t ("." ++ pyStr (varGet varsDemoScene ("ext")))) = .ok true :=
  target_path_appends_original_extension sceneDemo ("/dl/video.mp4") stBase
    varsDemoScene ("Demo") (by decide) rfl rfl rfl (by decide)

/-! ## Claim C8: translation failures fall back to the original text -/

theorem call_api_none_of_no_content (r : HttpResp) (h : respDeliversContent r = false)
    (text : Json) (cfg : TrCfg) :
    _call_openai_compatible_api_for_text text cfg r = none := by
  unfold _call_openai_compatible_api_for_text
  dsimp only
  split_ifs with hc
  · rfl
  · unfold respDeliversContent at h
    cases r with
    | error e => rfl
    | ok k =>
      dsimp only at h ⊢
      by_cases hs : k.status ≥ 400
      · rw [if_pos hs]
      · rw [if_neg hs]
        have hlt : k.status < 400 := Nat.lt_of_not_le hs
        rw [decide_eq_true hlt, Bool.true_and] at h
        cases hj : k.jsonBody with
        | error e => rfl
        | ok d =>
          rw [hj] at h
          dsimp only at h ⊢
          cases he : extractContent d with
          | none => rfl
          | some c =>
            rw [he] at h
            simp at h

/-- Claim C8: when the HTTP call fails (request error or status >= 400) or
the response does not carry the translated text in the expected
`choices[0].message.content` field, the translation call returns `none`
(it never raises: it is a total function), `translate_title_and_plot`
returns no translation for either field, and the sidecar writer's title and
plot compositions then use the original untranslated values. -/
theorem translate_failure_falls_back_to_original
    (st : Settings) (title plot : Json) (r1 r2 : HttpResp)
    (h1 : respDeliversContent r1 = false)
    (h2 : respDeliversContent r2 = false) :
    (∀ (text : Json) (cfg : TrCfg), _call_openai_compatible_api_for_text text cfg r1 = none) ∧
    translate_title_and_plot title plot st r1 r2 = (none, none) ∧
    titleForNfo title none = title ∧
    finalPlot plot none = plot := by
  refine ⟨call_api_none_of_no_content r1 h1, ?_, rfl, rfl⟩
  unfold translate_title_and_plot
  dsimp only
  split_ifs <;>
    simp [call_api_none_of_no_content r1 h1, call_api_none_of_no_content r2 h2]

/-- Witness for C8 at a concrete input: a fully configured translator, a
500-status title response and a plot request that raises. -/
theorem translate_failure_falls_back_to_original_witness :
    (∀ (text : Json) (cfg : TrCfg),
      _call_openai_compatible_api_for_text text cfg (.ok ⟨500, .ok (.obj [])⟩) = none) ∧
    translate_title_and_plot (.str ("Orig Title")) (.str ("Orig plot")) stTranslate
        (.ok ⟨500, .ok (.obj [])⟩) (.error ("timeout")) = (none, none) ∧
    titleForNfo (.str ("Orig Title")) none = .str ("Orig Title") ∧
    finalPlot (.str ("Orig plot")) none = .str ("Orig plot") :=
  translate_failure_falls_back_to_original stTranslate (.str ("Orig Title"))
    (.str ("Orig plot")) (.ok ⟨500, .ok (.obj [])⟩) (.error ("timeout")) rfl rfl

/-! ## Claim C9: download retry policy -/

/-- Claim C9: for every download with a non-empty URL, `_download_binary`
makes at most 3 attempts; it sleeps 2 seconds after a first failure and 4
seconds after a second (and nothing else); and when all three attempts fail
it gives up and reports failure (no exception: the embedding is a total
function) with the original destination path. -/
theorem download_retries_at_most_three_with_backoff
    (url dst : String) (detect : Bool) (oracle : Nat → DlAttempt)
    (hurl : ¬ url = "") :
    (download_binary url dst detect oracle).attemptsMade ≤ 3 ∧
    (download_binary url dst detect oracle).sleeps
      = (if (oracle 1).ok then [] else if (oracle 2).ok then [2] else [2, 4]) ∧
    ((oracle 1).ok = false → (oracle 2).ok = false → (oracle 3).ok = false →
      (download_binary url dst detect oracle).ok = false ∧
      (download_binary url dst detect oracle).attemptsMade = 3 ∧
      (download_binary url dst detect oracle).finalPath = dst) := by
  by_cases h1 : (oracle 1).ok <;> by_cases h2 : (oracle 2).ok <;> by_cases h3 : (oracle 3).ok <;>
    simp [download_binary, hurl, dlLoop, h1, h2, h3]

/-- Witness for C9 at a concrete input: a download whose three attempts all
fail. -/
theorem download_retries_at_most_three_with_backoff_witness :
    (download_binary ("http://h/img") ("/p/x-poster") true
        (fun _ => ⟨false, "", "", 0⟩)).attemptsMade ≤ 3 ∧
    (download_binary ("http://h/img") ("/p/x-poster") true
        (fun _ => ⟨false, "", "", 0⟩)).sleeps
      = (if (DlAttempt.mk false "" "" 0).ok then []
         else if (DlAttempt.mk false "" "" 0).ok then [2] else [2, 4]) ∧
    ((DlAttempt.mk false "" "" 0).ok = false → (DlAttempt.mk false "" "" 0).ok = false →
      (DlAttempt.mk false "" "" 0).ok = false →
      (download_binary ("http://h/img") ("/p/x-poster") true
          (fun _ => ⟨false, "", "", 0⟩)).ok = false ∧
      (download_binary ("http://h/img") ("/p/x-poster") true
          (fun _ => ⟨false, "", "", 0⟩)).attemptsMade = 3 ∧
      (download_binary ("http://h/img") ("/p/x-poster") true
          (fun _ => ⟨false, "", "", 0⟩)).finalPath = "/p/x-poster") :=
  download_retries_at_most_three_with_backoff ("http://h/img") ("/p/x-poster") true
    (fun _ => ⟨false, "", "", 0⟩) (by decide)

theorem posterStep_none (vb : String) (present : List String) (img : String) (p : List String)
    (h : posterStep vb present img = (p, none)) : p = present := by
  rcases hsp : splitext img with ⟨img_base, img_ext⟩
  unfold posterStep at h
  rw [hsp] at h
  dsimp only at h
  split_ifs at h <;> simp_all

theorem posterStep_some (vb : String) (present : List String) (img : String)
    (p : List String) (r : String × String)
    (h : posterStep vb present img = (p, some r)) :
    r.1 = img ∧ present.contains r.2 = false ∧ p = (present.erase img) ++ [r.2] ∧
    endsWithStr (splitext img).1 ("-poster") = true ∧
    ¬ dropRightStr (splitext img).1 7 = vb ∧
    r.2 = vb ++ "-poster." ++ lowerStr (lstripDot (splitext img).2) := by
  rcases hsp : splitext img with ⟨img_base, img_ext⟩
  unfold posterStep at h
  rw [hsp] at h
  dsimp only at h
  split_ifs at h with h1 h2 h3 h4
  all_goals try (have hcontra := congrArg Prod.snd h; dsimp only at hcontra; exact Option.noConfusion hcontra)
  rw [Prod.mk.injEq] at h
  obtain ⟨hp, hr⟩ := h
  rw [Option.some.injEq] at hr
  subst hr
  dsimp only
  exact ⟨rfl, by simpa using h4, hp.symm, h2, h3, rfl⟩

theorem posterLoop_renames_ok (vb : String) :
    ∀ (imgs present : List String), renames_ok present (posterLoop vb present imgs).2 := by
  intro imgs
  induction imgs with
  | nil => intro present; exact trivial
  | cons img rest ih =>
    intro present
    rw [posterLoop]
    rcases hstep : posterStep vb present img with ⟨p, o⟩
    cases o with
    | none =>
      have hp := posterStep_none vb present img p hstep
      subst hp
      exact ih p
    | some r =>
      dsimp only
      obtain ⟨hr1, hr2, hp, _, _, _⟩ := posterStep_some vb present img p r hstep
      rcases hloop : posterLoop vb p rest with ⟨p2, rs⟩
      dsimp only
      rcases r with ⟨rs1, rd⟩
      dsimp only at hr1 hr2 hp
      refine ⟨hr2, ?_⟩
      rw [hr1, ← hp]
      have := ih p
      rw [hloop] at this
      exact this

theorem posterLoop_mem (vb : String) :
    ∀ (imgs present : List String) (r : String × String),
      r ∈ (posterLoop vb present imgs).2 →
      ∃ img, img ∈ imgs ∧ r.1 = img ∧
        endsWithStr (splitext img).1 ("-poster") = true ∧
        ¬ dropRightStr (splitext img).1 7 = vb ∧
        r.2 = vb ++ "-poster." ++ lowerStr (lstripDot (splitext img).2) := by
  intro imgs
  induction imgs with
  | nil => intro present r hr; simp [posterLoop] at hr
  | cons img rest ih =>
    intro present r hr
    rw [posterLoop] at hr
    rcases hstep : posterStep vb present img with ⟨p, o⟩
    rw [hstep] at hr
    cases o with
    | none =>
      obtain ⟨i, hi, hcomp⟩ := ih p r hr
      exact ⟨i, List.mem_cons_of_mem _ hi, hcomp⟩
    | some r0 =>
      dsimp only at hr
      rcases hloop : posterLoop vb p rest with ⟨p2, rs⟩
      rw [hloop] at hr
      dsimp only at hr
      rcases List.mem_cons.mp hr with heq | hr2
      · subst heq
        obtain ⟨hr1, _h2, _h3, h4, h5, h6⟩ := posterStep_some vb present img p r hstep
        exact ⟨img, List.mem_cons_self _ _, hr1, h4, h5, h6⟩
      · obtain ⟨i, hi, hcomp⟩ := ih p r (by rw [hloop]; exact hr2)
        exact ⟨i, List.mem_cons_of_mem _ hi, hcomp⟩

/-- C10: the poster fixer either leaves the directory unchanged (when there are no
images, or not exactly one video), or performs only renames that are safe: each
renamed source is a "-poster" image whose prefix differs from the video base name,
the destination is the video base name plus "-poster" plus the image extension,
and no rename target collides with a file present at the time of the rename. -/
theorem fix_posters_renames_only_safely (names imgExts vidExts : List String) :
    (((split_by_ext imgExts vidExts names).1.isEmpty = true ∨
       ¬ (split_by_ext imgExts vidExts names).2.length = 1) →
      fix_posters_in_dir names imgExts vidExts = (names, [])) ∧
    renames_ok names (fix_posters_in_dir names imgExts vidExts).2 ∧
    (∀ r ∈ (fix_posters_in_dir names imgExts vidExts).2,
      ∃ v, (split_by_ext imgExts vidExts names).2 = [v] ∧
        r.1 ∈ (split_by_ext imgExts vidExts names).1 ∧
        endsWithStr (splitext r.1).1 ("-poster") = true ∧
        ¬ dropRightStr (splitext r.1).1 7 = (splitext v).1 ∧
        r.2 = (splitext v).1 ++ "-poster." ++ lowerStr (lstripDot (splitext r.1).2)) := by
  rcases hse : split_by_ext imgExts vidExts names with ⟨imgs, vids⟩
  dsimp only
  by_cases hcase : (imgs.isEmpty || vids.isEmpty) = true
  · have hfix : fix_posters_in_dir names imgExts vidExts = (names, []) := by
      unfold fix_posters_in_dir
      rw [hse]
      dsimp only
      rw [if_pos hcase]
    refine ⟨fun _ => hfix, ?_, ?_⟩
    · rw [hfix]; exact trivial
    · rw [hfix]; intro r hr; simp at hr
  · by_cases hlen : vids.length = 1
    · obtain ⟨v, rfl⟩ := List.length_eq_one.mp hlen
      have hfix : fix_posters_in_dir names imgExts vidExts
          = posterLoop (splitext v).1 names imgs := by
        unfold fix_posters_in_dir
        rw [hse]
        dsimp only
        rw [if_neg (by simpa using hcase), if_neg (by simp)]
      refine ⟨?_, ?_, ?_⟩
      · intro hcon
        rcases hcon with hcon | hcon
        · exfalso
          apply hcase
          simp [hcon]
        · exact absurd rfl hcon
      · rw [hfix]
        exact posterLoop_renames_ok _ imgs names
      · intro r hr
        rw [hfix] at hr
        obtain ⟨img, hmem, hr1, h4, h5, h6⟩ := posterLoop_mem _ imgs names r hr
        refine ⟨v, rfl, ?_, ?_, ?_, ?_⟩ <;> rw [hr1]
        · exact hmem
        · exact h4
        · exact h5
        · exact h6
    · have hfix : fix_posters_in_dir names imgExts vidExts = (names, []) := by
        unfold fix_posters_in_dir
        rw [hse]
        dsimp only
        rw [if_neg (by simpa using hcase), if_pos (by simpa using hlen)]
      refine ⟨fun _ => hfix, ?_, ?_⟩
      · rw [hfix]; exact trivial
      · rw [hfix]; intro r hr; simp at hr
